import Mathlib

/-!
Verification of the GGUF visualizer core (gguf-parser.js / point-cloud.js).

JavaScript numbers are modelled over `ℚ` (exact rational arithmetic); where
the exact IEEE-754 double rounding of an integer matters (the 64-bit reads),
it is modelled explicitly by `roundToDouble`.  Byte buffers are `List ℕ`
(each entry one byte).  Fallible reads return `Except GGUFError`.
-/

/-- JavaScript `Math.round`: round half away from +∞ side, i.e. `⌊x + 1/2⌋`. -/
def jsRound (q : ℚ) : ℤ := ⌊q + 1/2⌋

/-- Smallest power of two `m` with `n / m < 2^53` (the double-precision ulp
of `n`); the fuel bound (one halving per bit) is never exhausted for any
value a 64-bit read can produce. -/
def dblScale : ℕ → ℕ → ℕ
  | 0, _ => 1
  | fuel + 1, n => if n < 2 ^ 53 then 1 else 2 * dblScale fuel (n / 2)

/-- Rounding of a natural number to the nearest IEEE-754 double
(round to nearest, ties to even); models JavaScript `Number(bigIntValue)`.
Integers below `2^53` are exactly representable and unchanged; above, the
value is quantized to its 53-bit ulp grid. -/
def roundToDouble (n : ℕ) : ℕ :=
  if n < 2 ^ 53 then n
  else
    let m := dblScale 128 n
    let q := n / m
    let r := n % m
    let q' := if m / 2 < r ∨ (r = m / 2 ∧ q % 2 = 1) then q + 1 else q
    q' * m

/-- Extended JavaScript number: a finite rational or one of the IEEE specials. -/
inductive JSNum where
  | finite (q : ℚ)
  | posInf
  | negInf
  | nan
deriving DecidableEq

/-- Little-endian value of `n` bytes of `bytes` starting at `off`
(missing bytes read as 0; callers bound-check first). -/
def readLE (bytes : List ℕ) (off : ℕ) : ℕ → ℕ
  | 0 => 0
  | k + 1 => bytes.getD off 0 + 256 * readLE bytes (off + 1) k

/-- Error conditions of the GGUF header parse (`BUFFER_TOO_SMALL`,
bad magic, unsupported version, unknown metadata value type). -/
inductive GGUFError where
  | bufferTooSmall
  | badMagic (got : ℕ)
  | badVersion (v : ℕ)
  | unknownValueType (t : ℕ)
deriving DecidableEq

/-- `BufferReader.readUint8`: one byte, advance by 1. -/
def readUint8 (bytes : List ℕ) (off : ℕ) : Except GGUFError (ℕ × ℕ) :=
  if off + 1 > bytes.length then .error .bufferTooSmall
  else .ok (readLE bytes off 1, off + 1)

/-- `BufferReader.readUint16` (little-endian), advance by 2. -/
def readUint16 (bytes : List ℕ) (off : ℕ) : Except GGUFError (ℕ × ℕ) :=
  if off + 2 > bytes.length then .error .bufferTooSmall
  else .ok (readLE bytes off 2, off + 2)

/-- `BufferReader.readUint32` (little-endian), advance by 4. -/
def readUint32 (bytes : List ℕ) (off : ℕ) : Except GGUFError (ℕ × ℕ) :=
  if off + 4 > bytes.length then .error .bufferTooSmall
  else .ok (readLE bytes off 4, off + 4)

/-- Two's-complement reinterpretation of an `n`-byte unsigned value. -/
def toSigned (w : ℕ) (v : ℕ) : ℤ :=
  if v < 2 ^ (8 * w - 1) then (v : ℤ) else (v : ℤ) - 2 ^ (8 * w)

/-- `BufferReader.readInt8`. -/
def readInt8 (bytes : List ℕ) (off : ℕ) : Except GGUFError (ℤ × ℕ) :=
  if off + 1 > bytes.length then .error .bufferTooSmall
  else .ok (toSigned 1 (readLE bytes off 1), off + 1)

/-- `BufferReader.readInt16` (little-endian). -/
def readInt16 (bytes : List ℕ) (off : ℕ) : Except GGUFError (ℤ × ℕ) :=
  if off + 2 > bytes.length then .error .bufferTooSmall
  else .ok (toSigned 2 (readLE bytes off 2), off + 2)

/-- `BufferReader.readInt32` (little-endian). -/
def readInt32 (bytes : List ℕ) (off : ℕ) : Except GGUFError (ℤ × ℕ) :=
  if off + 4 > bytes.length then .error .bufferTooSmall
  else .ok (toSigned 4 (readLE bytes off 4), off + 4)

/-- `BufferReader.readUint64`: reads `lo`/`hi` 32-bit halves little-endian;
returns `lo` when `hi === 0`, otherwise converts the combined BigInt to a
JS Number (which rounds to the nearest double). -/
def readUint64 (bytes : List ℕ) (off : ℕ) : Except GGUFError (ℕ × ℕ) :=
  if off + 8 > bytes.length then .error .bufferTooSmall
  else
    let lo := readLE bytes off 4
    let hi := readLE bytes (off + 4) 4
    .ok (if hi = 0 then lo else roundToDouble (hi * 2 ^ 32 + lo), off + 8)

/-- `BufferReader.readInt64`: exact in the exact ranges, otherwise the BigInt
value rounded to a double (modelled on the magnitude). -/
def readInt64 (bytes : List ℕ) (off : ℕ) : Except GGUFError (ℤ × ℕ) :=
  if off + 8 > bytes.length then .error .bufferTooSmall
  else
    let lo := readLE bytes off 4
    let hi := readLE bytes (off + 4) 4
    let v : ℤ := toSigned 8 (hi * 2 ^ 32 + lo)
    .ok (if hi = 0 ∧ lo < 2 ^ 31 then (lo : ℤ)
         else if hi = 2 ^ 32 - 1 ∧ 2 ^ 31 ≤ lo then v
         else if 0 ≤ v then (roundToDouble v.toNat : ℤ) else -(roundToDouble (-v).toNat : ℤ),
         off + 8)

/-- IEEE-754 binary32 decode of a 32-bit pattern (used by `readFloat32`). -/
def f32FromBits (b : ℕ) : JSNum :=
  let sign : ℕ := b / 2 ^ 31 % 2
  let exp : ℕ := b / 2 ^ 23 % 2 ^ 8
  let frac : ℕ := b % 2 ^ 23
  if exp = 0 then
    .finite ((if sign = 1 then -1 else 1) * (2 : ℚ) ^ (-(126 : ℤ)) * (frac / 2 ^ 23))
  else if exp = 0xFF then
    if frac ≠ 0 then .nan else if sign = 1 then .negInf else .posInf
  else
    .finite ((if sign = 1 then -1 else 1) * (2 : ℚ) ^ ((exp : ℤ) - 127) * (1 + (frac : ℚ) / 2 ^ 23))

/-- IEEE-754 binary64 decode of a 64-bit pattern (used by `readFloat64`). -/
def f64FromBits (b : ℕ) : JSNum :=
  let sign : ℕ := b / 2 ^ 63 % 2
  let exp : ℕ := b / 2 ^ 52 % 2 ^ 11
  let frac : ℕ := b % 2 ^ 52
  if exp = 0 then
    .finite ((if sign = 1 then -1 else 1) * (2 : ℚ) ^ (-(1022 : ℤ)) * (frac / 2 ^ 52))
  else if exp = 0x7FF then
    if frac ≠ 0 then .nan else if sign = 1 then .negInf else .posInf
  else
    .finite ((if sign = 1 then -1 else 1) * (2 : ℚ) ^ ((exp : ℤ) - 1023) * (1 + (frac : ℚ) / 2 ^ 52))

/-- `BufferReader.readFloat32` (little-endian). -/
def readFloat32 (bytes : List ℕ) (off : ℕ) : Except GGUFError (JSNum × ℕ) :=
  if off + 4 > bytes.length then .error .bufferTooSmall
  else .ok (f32FromBits (readLE bytes off 4), off + 4)

/-- `BufferReader.readFloat64` (little-endian). -/
def readFloat64 (bytes : List ℕ) (off : ℕ) : Except GGUFError (JSNum × ℕ) :=
  if off + 8 > bytes.length then .error .bufferTooSmall
  else .ok (f64FromBits (readLE bytes off 8), off + 8)

/-- `BufferReader.readBool`: one byte, nonzero means true. -/
def readBool (bytes : List ℕ) (off : ℕ) : Except GGUFError (Bool × ℕ) :=
  match readUint8 bytes off with
  | .error e => .error e
  | .ok (v, off') => .ok (v ≠ 0, off')

/-- `BufferReader.readString`: u64 length then that many raw bytes
(the string is kept as its byte list; UTF-8 decoding is not modelled). -/
def readStr (bytes : List ℕ) (off : ℕ) : Except GGUFError (List ℕ × ℕ) :=
  match readUint64 bytes off with
  | .error e => .error e
  | .ok (len, off1) =>
    if off1 + len > bytes.length then .error .bufferTooSmall
    else .ok ((bytes.drop off1).take len, off1 + len)

/-- Parsed GGUF metadata value (tagged union of the value grammar). -/
inductive GGUFValue where
  | num (x : JSNum)
  | int (v : ℤ)
  | uint (v : ℕ)
  | bool (b : Bool)
  | str (s : List ℕ)
  | arr (vs : List GGUFValue)

mutual

/-- `BufferReader.readValue`: typed value read dispatching on the GGUF value
type tag (0–12); type 9 is a homogeneous array with a declared element type
and u64 length.  The recursion is fuelled: every call consumes at least one
byte of the bounded buffer, so fuel `bytes.length + 2` (as used by the parse
loop below) can never be exhausted before an out-of-data error fires; the
fuel-exhaustion branch returns the same insufficient-data error. -/
def readValue (bytes : List ℕ) : ℕ → ℕ → ℕ → Except GGUFError (GGUFValue × ℕ)
  | 0, _, _ => .error .bufferTooSmall
  | fuel + 1, type, off =>
    match type with
    | 0 => match readUint8 bytes off with
           | .error e => .error e | .ok (v, o) => .ok (.uint v, o)
    | 1 => match readInt8 bytes off with
           | .error e => .error e | .ok (v, o) => .ok (.int v, o)
    | 2 => match readUint16 bytes off with
           | .error e => .error e | .ok (v, o) => .ok (.uint v, o)
    | 3 => match readInt16 bytes off with
           | .error e => .error e | .ok (v, o) => .ok (.int v, o)
    | 4 => match readUint32 bytes off with
           | .error e => .error e | .ok (v, o) => .ok (.uint v, o)
    | 5 => match readInt32 bytes off with
           | .error e => .error e | .ok (v, o) => .ok (.int v, o)
    | 6 => match readFloat32 bytes off with
           | .error e => .error e | .ok (v, o) => .ok (.num v, o)
    | 7 => match readBool bytes off with
           | .error e => .error e | .ok (v, o) => .ok (.bool v, o)
    | 8 => match readStr bytes off with
           | .error e => .error e | .ok (v, o) => .ok (.str v, o)
    | 10 => match readUint64 bytes off with
            | .error e => .error e | .ok (v, o) => .ok (.uint v, o)
    | 11 => match readInt64 bytes off with
            | .error e => .error e | .ok (v, o) => .ok (.int v, o)
    | 12 => match readFloat64 bytes off with
            | .error e => .error e | .ok (v, o) => .ok (.num v, o)
    | 9 =>
      match readUint32 bytes off with
      | .error e => .error e
      | .ok (arrType, off1) =>
        match readUint64 bytes off1 with
        | .error e => .error e
        | .ok (arrLen, off2) =>
          match readValueList bytes fuel arrType arrLen off2 with
          | .error e => .error e
          | .ok (vs, o) => .ok (.arr vs, o)
    | t => .error (.unknownValueType t)

/-- Element loop of the array case of `readValue`. -/
def readValueList (bytes : List ℕ) : ℕ → ℕ → ℕ → ℕ → Except GGUFError (List GGUFValue × ℕ)
  | _, _, 0, off => .ok ([], off)
  | fuel, type, n + 1, off =>
    match readValue bytes fuel type off with
    | .error e => .error e
    | .ok (v, off1) =>
      match readValueList bytes fuel type n off1 with
      | .error e => .error e
      | .ok (vs, off') => .ok (v :: vs, off')
end

/-- `QUANT_INFO`: block geometry `(blockSize, bytesPerBlock)` per ggml type id. -/
def QUANT_INFO : ℕ → Option (ℕ × ℕ)
  | 0 => some (1, 4)      -- F32
  | 1 => some (1, 2)      -- F16
  | 34 => some (1, 2)     -- BF16
  | 2 => some (32, 18)    -- Q4_0
  | 3 => some (32, 20)    -- Q4_1
  | 6 => some (32, 22)    -- Q5_0
  | 7 => some (32, 24)    -- Q5_1
  | 8 => some (32, 34)    -- Q8_0
  | 9 => some (32, 40)    -- Q8_1
  | 10 => some (256, 84)  -- Q2_K
  | 11 => some (256, 110) -- Q3_K_S
  | 12 => some (256, 110) -- Q3_K_M
  | 13 => some (256, 110) -- Q3_K_L
  | 14 => some (256, 144) -- Q4_K_S
  | 15 => some (256, 144) -- Q4_K_M
  | 16 => some (256, 176) -- Q5_K_S
  | 17 => some (256, 176) -- Q5_K_M
  | 18 => some (256, 210) -- Q6_K
  | 19 => some (256, 292) -- Q8_K
  | 28 => some (1, 1)     -- I8
  | 29 => some (1, 2)     -- I16
  | 30 => some (1, 4)     -- I32
  | 31 => some (1, 8)     -- I64
  | 32 => some (1, 8)     -- F64
  | _ => none

/-- Tensor-info entry produced by the header parser: name, dims, ggml type id,
data offset, derived element count and on-disk byte size. -/
structure TensorInfo where
  name : List ℕ
  dims : List ℕ
  type : ℕ
  offset : ℕ
  numElements : ℕ
  dataSize : ℕ
deriving DecidableEq

/-- Metadata-entry loop of `_parseHeader`: reads `n` entries of
(string key, u32 type tag, typed value). -/
def parseMetadataEntries (bytes : List ℕ) : ℕ → ℕ → Except GGUFError (List (List ℕ × GGUFValue) × ℕ)
  | 0, off => .ok ([], off)
  | n + 1, off =>
    match readStr bytes off with
    | .error e => .error e
    | .ok (key, off1) =>
      match readUint32 bytes off1 with
      | .error e => .error e
      | .ok (valueType, off2) =>
        match readValue bytes (bytes.length + 2) valueType off2 with
        | .error e => .error e
        | .ok (value, off3) =>
          match parseMetadataEntries bytes n off3 with
          | .error e => .error e
          | .ok (rest, off') => .ok ((key, value) :: rest, off')

/-- Dimension loop of a tensor-info entry: `nDims` u64 reads. -/
def parseDims (bytes : List ℕ) : ℕ → ℕ → Except GGUFError (List ℕ × ℕ)
  | 0, off => .ok ([], off)
  | n + 1, off =>
    match readUint64 bytes off with
    | .error e => .error e
    | .ok (d, off1) =>
      match parseDims bytes n off1 with
      | .error e => .error e
      | .ok (ds, off') => .ok (d :: ds, off')

/-- Tensor-info loop of `_parseHeader`: reads `n` entries of
(name, u32 nDims, dims, u32 type, u64 offset) and computes
`numElements` (product of dims) and `dataSize` from `QUANT_INFO`. -/
def parseTensorEntries (bytes : List ℕ) : ℕ → ℕ → Except GGUFError (List TensorInfo × ℕ)
  | 0, off => .ok ([], off)
  | n + 1, off =>
    match readStr bytes off with
    | .error e => .error e
    | .ok (name, off1) =>
      match readUint32 bytes off1 with
      | .error e => .error e
      | .ok (nDims, off2) =>
        match parseDims bytes nDims off2 with
        | .error e => .error e
        | .ok (dims, off3) =>
          match readUint32 bytes off3 with
          | .error e => .error e
          | .ok (type, off4) =>
            match readUint64 bytes off4 with
            | .error e => .error e
            | .ok (tOffset, off5) =>
              let numElements := dims.foldl (fun a b => a * b) 1
              let dataSize :=
                match QUANT_INFO type with
                | some (blockSize, bytesPerBlock) =>
                  ((numElements + blockSize - 1) / blockSize) * bytesPerBlock
                | none => numElements * 4
              match parseTensorEntries bytes n off5 with
              | .error e => .error e
              | .ok (rest, off') =>
                .ok ({ name := name, dims := dims, type := type, offset := tOffset,
                       numElements := numElements, dataSize := dataSize } :: rest, off')

/-- Result of a successful header parse. -/
structure HeaderResult where
  metadata : List (List ℕ × GGUFValue)
  tensors : List TensorInfo
  tensorDataOffset : ℕ
  version : ℕ
  tensorCount : ℕ

/-- `_parseHeader` with the cursor position reached after the last tensor-info
entry (`headerEnd`) exposed as the second component: slices the first
`readSize` bytes of the file, checks magic `0x46554747` and version 2–3,
reads the two u64 counts, the metadata entries and the tensor entries, and
aligns the data-section start up to a multiple of `ALIGNMENT = 32`. -/
def parseHeaderCore (file : List ℕ) (readSize : ℕ) : Except GGUFError (HeaderResult × ℕ) :=
  let bytes := file.take readSize
  match readUint32 bytes 0 with
  | .error e => .error e
  | .ok (magic, off1) =>
    if magic ≠ 0x46554747 then .error (.badMagic magic)
    else
      match readUint32 bytes off1 with
      | .error e => .error e
      | .ok (version, off2) =>
        if version < 2 ∨ version > 3 then .error (.badVersion version)
        else
          match readUint64 bytes off2 with
          | .error e => .error e
          | .ok (tensorCount, off3) =>
            match readUint64 bytes off3 with
            | .error e => .error e
            | .ok (metadataKVCount, off4) =>
              match parseMetadataEntries bytes metadataKVCount off4 with
              | .error e => .error e
              | .ok (metadata, off5) =>
                match parseTensorEntries bytes tensorCount off5 with
                | .error e => .error e
                | .ok (tensors, headerEnd) =>
                  let tensorDataOffset := ((headerEnd + 31) / 32) * 32
                  .ok ({ metadata := metadata, tensors := tensors,
                         tensorDataOffset := tensorDataOffset, version := version,
                         tensorCount := tensorCount }, headerEnd)

/-- `_parseHeader(file, readSize)`: the header parse over an adaptive slice. -/
def parseHeader (file : List ℕ) (readSize : ℕ) : Except GGUFError HeaderResult :=
  match parseHeaderCore file readSize with
  | .error e => .error e
  | .ok (r, _) => .ok r

/-- Retry loop of `parseGGUFHeader`: on `BUFFER_TOO_SMALL` with the slice
still smaller than the file, grow the slice ×4 (capped at the file length)
and retry; any other failure is rethrown.  The `0 < readSize` guard is
vacuous on every state reachable from `parseGGUFHeader` (the initial size is
positive whenever the file is non-empty) and only serves termination. -/
def parseGGUFHeaderLoop (file : List ℕ) (readSize : ℕ) : Except GGUFError HeaderResult :=
  match parseHeader file readSize with
  | .ok r => .ok r
  | .error e =>
    if e = .bufferTooSmall ∧ readSize < file.length ∧ 0 < readSize then
      parseGGUFHeaderLoop file (min file.length (readSize * 4))
    else .error e
termination_by file.length - readSize
decreasing_by
  rename_i h
  omega

/-- `parseGGUFHeader(file)`: start with a `min(file.size, 10 MiB)` slice and
run the adaptive retry loop. -/
def parseGGUFHeader (file : List ℕ) : Except GGUFError HeaderResult :=
  parseGGUFHeaderLoop file (min file.length (10 * 1024 * 1024))

/-- `f16ToF32`: manual IEEE half-precision decode (sign/exponent/fraction,
bias 15, subnormals, ±infinity and NaN on exponent 0x1F). -/
def f16ToF32 (h : ℕ) : JSNum :=
  let sign : ℕ := h / 2 ^ 15 % 2
  let exp : ℕ := h / 2 ^ 10 % 2 ^ 5
  let frac : ℕ := h % 2 ^ 10
  if exp = 0 then
    if frac = 0 then .finite 0
    else .finite ((if sign = 1 then -1 else 1) * (2 : ℚ) ^ (-(14 : ℤ)) * ((frac : ℚ) / 1024))
  else if exp = 0x1F then
    if frac ≠ 0 then .nan else if sign = 1 then .negInf else .posInf
  else
    .finite ((if sign = 1 then -1 else 1) * (2 : ℚ) ^ ((exp : ℤ) - 15) * (1 + (frac : ℚ) / 1024))

/-- Metadata value as seen by `extractArchInfo` (the parsed JS object):
numbers, strings, booleans, arrays. -/
inductive MetaVal where
  | num (q : ℚ)
  | str (s : String)
  | bool (b : Bool)
  | arr (vs : List ℚ)
deriving DecidableEq

/-- A metadata table: key to optional value (`undefined` = `none`). -/
def MetaTable := String → Option MetaVal

/-- JavaScript truthiness of a defined metadata value. -/
def truthy : MetaVal → Bool
  | .num q => q ≠ 0
  | .str s => s ≠ ""
  | .bool b => b
  | .arr _ => true

/-- JavaScript `a || b` where `a` may be `undefined` and `b` may be too. -/
def jsSelect (a b : Option MetaVal) : Option MetaVal :=
  match a with
  | some v => if truthy v then some v else b
  | none => b

/-- JavaScript `a || 0` where `a` may be `undefined`. -/
def jsOrZero (a : Option MetaVal) : MetaVal :=
  match a with
  | some v => if truthy v then v else .num 0
  | none => .num 0

/-- JavaScript `a < b` restricted to the operand shapes `extractArchInfo`
actually compares (two numbers, or two equal-type values); mixed-type
coercions are not modelled and yield `false`. -/
def jsLt : MetaVal → MetaVal → Bool
  | .num a, .num b => a < b
  | .str a, .str b => a < b
  | _, _ => false

/-- The field lookup `get` of `extractArchInfo`:
`metadata[key] ?? metadata[arch ++ "." ++ key]` (nullish coalescing — the
bare key wins whenever it is present, even with a falsy value). -/
def jsGet (md : MetaTable) (arch : String) (key : String) : Option MetaVal :=
  match md key with
  | some v => some v
  | none => md (arch ++ "." ++ key)

/-- Architecture descriptor produced by `extractArchInfo` (the fields the
claims are about; the naming/file-type cosmetics are omitted). -/
structure ArchInfo where
  architecture : String
  blockCount : MetaVal
  contextLength : MetaVal
  embeddingLength : MetaVal
  feedForwardLength : MetaVal
  headCount : MetaVal
  headCountKV : MetaVal
  expertCount : MetaVal
  expertUsedCount : MetaVal
  ropeFreqBase : MetaVal
  ropeDimensionCount : MetaVal
  isMoE : Bool
  isGQA : Bool
deriving DecidableEq

/-- `extractArchInfo(metadata)`: resolves `general.architecture` (default
`"unknown"`), then each architectural field through `get(key) || 0`;
`headCountKV` falls back to `attention.head_count` before the zero default;
`isMoE` is `expertCount > 1` and `isGQA` is `0 < headCountKV < headCount`. -/
def extractArchInfo (md : MetaTable) : ArchInfo :=
  let arch :=
    match jsOrZero (md "general.architecture") with
    | .str s => s
    | _ => "unknown"
  let get := fun key => jsGet md arch key
  let blockCount := jsOrZero (get "block_count")
  let headCount := jsOrZero (get "attention.head_count")
  let headCountKV := jsOrZero (jsSelect (get "attention.head_count_kv") (get "attention.head_count"))
  let expertCount := jsOrZero (get "expert_count")
  { architecture := arch
    blockCount := blockCount
    contextLength := jsOrZero (get "context_length")
    embeddingLength := jsOrZero (get "embedding_length")
    feedForwardLength := jsOrZero (get "feed_forward_length")
    headCount := headCount
    headCountKV := headCountKV
    expertCount := expertCount
    expertUsedCount := jsOrZero (get "expert_used_count")
    ropeFreqBase := jsOrZero (get "rope.freq_base")
    ropeDimensionCount := jsOrZero (get "rope.dimension_count")
    isMoE := jsLt (.num 1) expertCount
    isGQA := jsLt (.num 0) headCountKV && jsLt headCountKV headCount }

/-- Axis-aligned layout region (origin, size). -/
structure Region where
  x : ℚ
  y : ℚ
  z : ℚ
  width : ℚ
  height : ℚ
  depth : ℚ
deriving DecidableEq

/-- Tensor classification: role tag, layer index (−1 if global),
expert index (−1 if non-routed). -/
structure Cls where
  category : String
  layerIdx : ℤ
  expertIdx : ℤ
deriving DecidableEq

/-- Tensor descriptor as consumed by the point-cloud generator. -/
structure PCTensor where
  name : String
  dims : List ℕ
  type : ℕ
  numElements : ℕ
deriving DecidableEq

/-- `TENSOR_COLORS`: fixed role palette. -/
def TENSOR_COLORS : List (String × (ℚ × ℚ × ℚ)) :=
  [("attn_q", (0.27, 0.53, 1.00)),
   ("attn_k", (0.27, 0.67, 1.00)),
   ("attn_v", (0.27, 0.80, 1.00)),
   ("attn_out", (0.40, 0.53, 0.87)),
   ("attn_norm", (0.87, 0.87, 0.27)),
   ("attn_other", (0.33, 0.60, 0.87)),
   ("ffn_gate", (1.00, 0.53, 0.27)),
   ("ffn_up", (1.00, 0.67, 0.27)),
   ("ffn_down", (1.00, 0.40, 0.27)),
   ("ffn_norm", (0.87, 0.87, 0.27)),
   ("ffn_other", (1.00, 0.60, 0.33)),
   ("moe_gate", (0.00, 0.90, 0.85)),
   ("moe_up", (0.85, 0.25, 0.95)),
   ("moe_down", (0.95, 0.75, 0.10)),
   ("embedding", (0.27, 0.87, 0.53)),
   ("output", (0.67, 0.40, 1.00)),
   ("output_norm", (0.87, 0.87, 0.27)),
   ("norm", (0.87, 0.87, 0.27)),
   ("other", (0.53, 0.53, 0.60))]

/-- `TENSOR_COLORS[category] || TENSOR_COLORS.other`. -/
def tensorColor (category : String) : ℚ × ℚ × ℚ :=
  (TENSOR_COLORS.lookup category).getD (0.53, 0.53, 0.60)

/-- `weightToColor`: diverging blue → white → red colormap, normalized by the
per-tensor maximum absolute value, clamped to [-1, 1]. -/
def weightToColor (value maxAbsVal : ℚ) : ℚ × ℚ × ℚ :=
  let t := if 0 < maxAbsVal then value / maxAbsVal else 0
  let clamped := max (-1) (min 1 t)
  if clamped < 0 then
    let s := 1 + clamped
    (0.2 + 0.8 * s, 0.33 + 0.67 * s, 1)
  else
    let s := clamped
    (1, 1 - 0.67 * s, 1 - 0.8 * s)

/-- `layerToColor`: green → blue → purple depth gradient. -/
def layerToColor (layerIdx : ℤ) (totalLayers : ℚ) : ℚ × ℚ × ℚ :=
  let t := if 1 < totalLayers then (layerIdx : ℚ) / (totalLayers - 1) else 0
  if t < 0.5 then
    let s := t * 2
    (0.13 * (1 - s) + 0.27 * s, 0.8 * (1 - s) + 0.53 * s, 0.53 * (1 - s) + 1.0 * s)
  else
    let s := (t - 0.5) * 2
    (0.27 * (1 - s) + 0.67 * s, 0.53 * (1 - s) + 0.27 * s, 1)

/-- Architecture descriptor fields consumed by the layout engine and the
point-cloud generator. -/
structure ArchDesc where
  blockCount : ℚ
  headCount : ℚ
  headCountKV : ℚ
  embeddingLength : ℚ
  feedForwardLength : ℚ
  expertCount : ℚ
  isMoE : Bool
deriving DecidableEq

/-- `computeLayout(archInfo).getRegion(category, layerIdx, expertIdx, tensor)`:
the region assigned to one (role, layer, expert) combination.  The closed-over
width/spacing constants are inlined; the `tensor` argument of the source is
unused in its body and therefore omitted. -/
def getRegion (a : ArchDesc) (category : String) (layerIdx expertIdx : ℤ) : Region :=
  let layers := if a.blockCount ≠ 0 then a.blockCount else 1
  let heads := if a.headCount ≠ 0 then a.headCount else 1
  let headsKV := if a.headCountKV ≠ 0 then a.headCountKV else heads
  let ffnMult := if a.feedForwardLength ≠ 0 then a.feedForwardLength / max a.embeddingLength 1 else 4
  let experts := if a.isMoE then (if a.expertCount ≠ 0 then a.expertCount else 1) else 1
  let attnQWidth := heads * 1
  let attnKWidth := headsKV * 1
  let attnVWidth := headsKV * 1
  let attnOutWidth := heads * 1 * 0.5
  let qkvTotalWidth := attnQWidth + attnKWidth + attnVWidth + 0.6 * 2
  let ffnBlockWidth := max 2 ffnMult * 1
  let ffnTotalWidth := if a.isMoE then experts * (ffnBlockWidth + 0.3) * 0.4 else ffnBlockWidth * 1.5
  let embHeight : ℚ := 2 * 1.5
  let layerHeight : ℚ := 2
  let globalBlockWidth := max qkvTotalWidth ffnTotalWidth * 0.8
  if category = "embedding" then
    { x := -(globalBlockWidth / 2), y := 0, z := -(18 * 1.5),
      width := globalBlockWidth, height := embHeight, depth := 1.2 * 2 }
  else if category = "output_norm" then
    { x := -(globalBlockWidth / 2), y := 0, z := layers * 18 + 0.5,
      width := globalBlockWidth, height := 0.3, depth := 1.2 }
  else if category = "output" then
    { x := -(globalBlockWidth / 2), y := 0, z := layers * 18 + 2.0,
      width := globalBlockWidth, height := embHeight, depth := 1.2 }
  else if layerIdx < 0 ∧ (category = "norm" ∨ category = "other") then
    { x := -2, y := 0, z := layers * 18 + 18,
      width := 4, height := 0.3, depth := 1.2 }
  else
    let layerZ : ℚ := (max 0 layerIdx : ℤ) * 18
    let qkvBaseX := -(qkvTotalWidth / 2)
    if category = "attn_norm" then
      { x := -(qkvTotalWidth / 2), y := layerHeight + 0.2, z := layerZ + 0,
        width := qkvTotalWidth, height := 0.15, depth := 1.2 * 0.5 }
    else if category = "attn_q" then
      { x := qkvBaseX, y := 0, z := layerZ + 2.5,
        width := attnQWidth, height := layerHeight, depth := 1.2 }
    else if category = "attn_k" then
      { x := qkvBaseX + attnQWidth + 0.6, y := 0, z := layerZ + 2.5,
        width := attnKWidth, height := layerHeight * 0.7, depth := 1.2 }
    else if category = "attn_v" then
      { x := qkvBaseX + attnQWidth + attnKWidth + 0.6 * 2, y := 0, z := layerZ + 2.5,
        width := attnVWidth, height := layerHeight * 0.7, depth := 1.2 }
    else if category = "attn_out" ∨ category = "attn_other" then
      { x := -(attnOutWidth / 2), y := 0, z := layerZ + 7.0,
        width := attnOutWidth, height := layerHeight, depth := 1.2 }
    else if category = "ffn_norm" then
      { x := -(ffnTotalWidth / 2), y := layerHeight + 0.2, z := layerZ + 10.0,
        width := ffnTotalWidth, height := 0.15, depth := 1.2 * 0.5 }
    else if a.isMoE ∧ 1 < experts ∧ category = "moe_gate" then
      { x := -(ffnTotalWidth / 2), y := layerHeight + 0.5, z := layerZ + 12.5 - 1.0,
        width := ffnTotalWidth, height := 0.3, depth := 1.2 * 0.5 }
    else if a.isMoE ∧ 1 < experts ∧ category = "moe_up" then
      { x := -(ffnTotalWidth / 2), y := 0, z := layerZ + 12.5,
        width := ffnTotalWidth, height := layerHeight, depth := 1.2 }
    else if a.isMoE ∧ 1 < experts ∧ category = "moe_down" then
      { x := -(ffnTotalWidth / 2), y := 0, z := layerZ + 16.0,
        width := ffnTotalWidth, height := layerHeight, depth := 1.2 }
    else
      let eIdx : ℚ := (max 0 expertIdx : ℤ)
      let expertWidth := ffnTotalWidth / experts - 0.3
      let moeBaseX := -(ffnTotalWidth / 2)
      let expertX := moeBaseX + eIdx * (expertWidth + 0.3)
      let subWidth := expertWidth / 2
      if a.isMoE ∧ 1 < experts ∧ category = "ffn_gate" then
        { x := expertX, y := 0, z := layerZ + 12.5,
          width := subWidth, height := layerHeight, depth := 1.2 }
      else if a.isMoE ∧ 1 < experts ∧ category = "ffn_up" then
        { x := expertX + subWidth, y := 0, z := layerZ + 12.5,
          width := subWidth, height := layerHeight, depth := 1.2 }
      else if a.isMoE ∧ 1 < experts ∧ category = "ffn_down" then
        { x := expertX, y := 0, z := layerZ + 16.0,
          width := expertWidth, height := layerHeight, depth := 1.2 }
      else
        let ffnSubWidth := ffnTotalWidth / 3 - 0.6 * 0.3
        let ffnH := layerHeight * min (ffnMult / 4) 1.5
        if category = "ffn_gate" then
          let pairWidth := ffnSubWidth * 2 + 0.6 * 0.3
          { x := -(pairWidth / 2), y := 0, z := layerZ + 12.5,
            width := ffnSubWidth, height := ffnH, depth := 1.2 }
        else if category = "ffn_up" then
          let pairWidth := ffnSubWidth * 2 + 0.6 * 0.3
          { x := -(pairWidth / 2) + ffnSubWidth + 0.6 * 0.3, y := 0, z := layerZ + 12.5,
            width := ffnSubWidth, height := ffnH, depth := 1.2 }
        else if category = "ffn_down" then
          { x := -(ffnSubWidth / 2), y := 0, z := layerZ + 16.0,
            width := ffnSubWidth, height := ffnH, depth := 1.2 }
        else if category = "ffn_other" then
          { x := -(ffnTotalWidth / 2), y := 0, z := layerZ + 12.5,
            width := ffnTotalWidth, height := layerHeight, depth := 1.2 }
        else
          { x := -3, y := -3, z := if 0 ≤ layerIdx then layerZ + 2.5 else layers * 18 + 3,
            width := 6, height := 1, depth := 1.2 }

/-- Per-tensor point allocation entry. -/
structure Alloc where
  tensor : PCTensor
  cls : Cls
  pointCount : ℤ
deriving DecidableEq

/-- `MIN_POINTS_PER_TENSOR`. -/
def MIN_POINTS_PER_TENSOR : ℤ := 400

/-- Proportional allocation stage of `generatePointCloud`
(`tensorAllocs` before the rescale pass): each tensor gets
`max(MIN_POINTS_PER_TENSOR, ⌊numElements / decimationRatio⌋)` points, where
the decimation ratio is `totalParams / targetPointCount`. -/
def rawAllocs (classify : String → Cls) (tensors : List PCTensor)
    (targetPointCount : ℕ) : List Alloc :=
  let totalParams : ℚ := (tensors.map fun t => (t.numElements : ℚ)).sum
  let decimationFactor := totalParams / (targetPointCount : ℚ)
  tensors.map fun t =>
    { tensor := t, cls := classify t.name,
      pointCount := max MIN_POINTS_PER_TENSOR ⌊(t.numElements : ℚ) / decimationFactor⌋ : Alloc }

/-- Point-allocation pass of `generatePointCloud`: proportional allocation
with the 400-point floor, then the rescale pass towards the requested target
(skipped when the raw total is zero, which cannot happen on a non-empty
tensor list because of the floor). -/
def computeAllocs (classify : String → Cls) (tensors : List PCTensor)
    (targetPointCount : ℕ) : List Alloc :=
  let tensorAllocs := rawAllocs classify tensors targetPointCount
  let allocTotal : ℤ := (tensorAllocs.map fun a => a.pointCount).sum
  if 0 < allocTotal then
    let scale := (targetPointCount : ℚ) / (allocTotal : ℚ)
    tensorAllocs.map fun a =>
      { a with pointCount := max MIN_POINTS_PER_TENSOR (jsRound ((a.pointCount : ℚ) * scale)) }
  else tensorAllocs

/-- Per-tensor max-abs normalization for weight coloring (`maxAbs`),
0 when no samples, 1 when all samples are 0. -/
def maxAbsOf : Option (List ℚ) → ℚ
  | some ws =>
    let m := ws.foldl (fun acc v => if acc < |v| then |v| else acc) 0
    if m = 0 then 1 else m
  | none => 0

/-- Color branch of the per-point loop: weight-derived diverging colormap
when weight mode has a sampled value for this point, layer gradient in layer
mode, otherwise the role palette with a random brightness variation (the only
branch that draws from the generator, at index `c + 3`). -/
def pointRGB (colorMode : String) (blockCount : ℚ) (cls : Cls) (w : Option (List ℚ))
    (maxAbs : ℚ) (rng : ℕ → ℚ) (pi c : ℕ) : (ℚ × ℚ × ℚ) × ℕ :=
  let layerRGB :=
    if 0 ≤ cls.layerIdx then layerToColor cls.layerIdx (if blockCount ≠ 0 then blockCount else 1)
    else ((0.5 : ℚ), (0.5 : ℚ), (0.6 : ℚ))
  let paletteRGB :=
    let tc := tensorColor cls.category
    let variation := 0.85 + rng (c + 3) * 0.3
    (tc.1 * variation, tc.2.1 * variation, tc.2.2 * variation)
  match w with
  | some ws =>
    if colorMode = "weight" ∧ pi < ws.length then (weightToColor (ws.getD pi 0) maxAbs, c + 3)
    else if colorMode = "layer" then (layerRGB, c + 3)
    else (paletteRGB, c + 4)
  | none =>
    if colorMode = "layer" then (layerRGB, c + 3)
    else (paletteRGB, c + 4)

/-- Body of the per-point loop of `generatePointCloud`: maps point `pi` to a
source element, decomposes it against the outer two dims, jitters (generator
indices `c`, `c+1`, `c+2`), places it in the region and colors it. -/
def emitPoint (colorMode : String) (blockCount : ℚ) (cls : Cls) (dims : List ℕ)
    (numElements pointCount : ℕ) (w : Option (List ℚ)) (maxAbs : ℚ) (region : Region)
    (rng : ℕ → ℚ) (pi c : ℕ) : List ℚ × List ℚ × ℕ :=
  let paramIdx := (⌊(pi : ℚ) * ((numElements : ℚ) / (pointCount : ℚ))⌋).toNat
  let rows := if 2 ≤ dims.length then dims.getD 1 0 else 1
  let cols := if dims.getD 0 0 ≠ 0 then dims.getD 0 0 else 1
  let row := if 1 < rows then paramIdx / cols else 0
  let col := paramIdx % cols
  let rowT : ℚ := if 1 < rows then (row : ℚ) / ((rows : ℚ) - 1) else 0.5
  let colT : ℚ := if 1 < cols then (col : ℚ) / ((cols : ℚ) - 1) else 0.5
  let jx := (rng c - 0.5) * 0.3
  let jy := (rng (c + 1) - 0.5) * 0.3
  let jz := (rng (c + 2) - 0.5) * 0.15
  let x := region.x + (colT + jx * (1 / max (cols : ℚ) 1)) * region.width
  let y := region.y + (rowT + jy * (1 / max (rows : ℚ) 1)) * region.height
  let z := region.z + jz * region.depth
  let rc := pointRGB colorMode blockCount cls w maxAbs rng pi c
  ([x, y, z], [min 1 rc.1.1, min 1 rc.1.2.1, min 1 rc.1.2.2], rc.2)

/-- The per-point loop: `count` remaining points starting at point index `pi`
and generator index `c`; returns flattened positions, colors and the final
generator index. -/
def emitPoints (colorMode : String) (blockCount : ℚ) (cls : Cls) (dims : List ℕ)
    (numElements pointCount : ℕ) (w : Option (List ℚ)) (maxAbs : ℚ) (region : Region)
    (rng : ℕ → ℚ) : ℕ → ℕ → ℕ → List ℚ × List ℚ × ℕ
  | 0, _, c => ([], [], c)
  | k + 1, pi, c =>
    let r := emitPoint colorMode blockCount cls dims numElements pointCount w maxAbs region rng pi c
    let rest := emitPoints colorMode blockCount cls dims numElements pointCount w maxAbs region rng k (pi + 1) r.2.2
    (r.1 ++ rest.1, r.2.1 ++ rest.2.1, rest.2.2)

/-- Phase 1 of `generatePointCloud`: in weight mode every tensor is sampled
independently and a failure is caught and replaced by `null`
(`sampleTensorWeights(...).catch(() => null)`); in the other color modes the
weights array stays all-`null`.  The fan-out batching of the source only
orders the reads and is not modelled. -/
def samplePhase (sampler : PCTensor → ℕ → Except String (List ℚ)) (colorMode : String)
    (allocs : List Alloc) : List (Option (List ℚ)) :=
  if colorMode = "weight" then
    allocs.map fun a => (sampler a.tensor a.pointCount.toNat).toOption
  else allocs.map fun _ => none

/-- Region metadata recorded per tensor (`tensorRegions` entries; the
cosmetic `knownName` field is omitted). -/
structure RegionEntry where
  name : String
  category : String
  layerIdx : ℤ
  expertIdx : ℤ
  dims : List ℕ
  type : ℕ
  region : Region
  startIdx : ℕ
  endIdx : ℕ
deriving DecidableEq

/-- Phase 2 of `generatePointCloud`: walk the allocations with their sampled
weights, emitting each tensor's points and region entry while threading the
global point index and the generator index. -/
def phase2 (blockCount : ℚ) (layout : String → ℤ → ℤ → Region) (colorMode : String)
    (rng : ℕ → ℚ) : List (Alloc × Option (List ℚ)) → ℕ → ℕ →
    List ℚ × List ℚ × List RegionEntry × ℕ × ℕ
  | [], gIdx, c => ([], [], [], gIdx, c)
  | (a, w) :: rest, gIdx, c =>
    let region := layout a.cls.category a.cls.layerIdx a.cls.expertIdx
    let count := a.pointCount.toNat
    let maxAbs := maxAbsOf w
    let r := emitPoints colorMode blockCount a.cls a.tensor.dims a.tensor.numElements
      count w maxAbs region rng count 0 c
    let entry : RegionEntry :=
      { name := a.tensor.name, category := a.cls.category, layerIdx := a.cls.layerIdx,
        expertIdx := a.cls.expertIdx, dims := a.tensor.dims, type := a.tensor.type,
        region := region, startIdx := gIdx, endIdx := gIdx + count }
    let r2 := phase2 blockCount layout colorMode rng rest (gIdx + count) r.2.2
    (r.1 ++ r2.1, r.2.1 ++ r2.2.1, entry :: r2.2.2.1, r2.2.2.2.1, r2.2.2.2.2)

/-- Output of `generatePointCloud`. -/
structure PCResult where
  positions : List ℚ
  colors : List ℚ
  tensorRegions : List RegionEntry
  actualPointCount : ℕ
deriving DecidableEq

/-- `generatePointCloud`: allocation, per-tensor weight sampling (weight mode
only, failures recovered to `null`), then position/color emission.  The
classifier, the weight sampler and the `Math.random` draw sequence `rng` are
explicit parameters of the model. -/
def generatePointCloud (arch : ArchDesc) (classify : String → Cls) (tensors : List PCTensor)
    (targetPointCount : ℕ) (colorMode : String)
    (sampler : PCTensor → ℕ → Except String (List ℚ)) (rng : ℕ → ℚ) : PCResult :=
  let allocs := computeAllocs classify tensors targetPointCount
  let weights := samplePhase sampler colorMode allocs
  let r := phase2 arch.blockCount (getRegion arch) colorMode rng (allocs.zip weights) 0 0
  { positions := r.1, colors := r.2.1, tensorRegions := r.2.2.1,
    actualPointCount := r.2.2.2.1 }

/-- `lineCount` of `_sampleLines`:
`max(2, round(min(100, max(8, ⌊√(min(srcCount, tgtCount))⌋)) × density))`. -/
def lineCountOf (srcCount tgtCount : ℕ) (density : ℚ) : ℕ :=
  let baseLine := min 100 (max 8 (Nat.sqrt (min srcCount tgtCount)))
  max 2 (jsRound ((baseLine : ℚ) * density)).toNat

/-- Line loop of `_sampleLines`: each segment draws a random source index
(generator index `c`) and target index (`c+1`) and copies both endpoint
positions and dimmed role colors. -/
def sampleLinesLoop (src tgt : RegionEntry) (positions : List ℚ)
    (srcColor tgtColor : ℚ × ℚ × ℚ) (dimFactor : ℚ) (srcCount tgtCount : ℕ)
    (rng : ℕ → ℚ) : ℕ → ℕ → List ℚ × List ℚ × ℕ
  | 0, c => ([], [], c)
  | k + 1, c =>
    let sIdx := src.startIdx + (⌊rng c * (srcCount : ℚ)⌋).toNat
    let tIdx := tgt.startIdx + (⌊rng (c + 1) * (tgtCount : ℚ)⌋).toNat
    let seg := [positions.getD (sIdx * 3) 0, positions.getD (sIdx * 3 + 1) 0,
                positions.getD (sIdx * 3 + 2) 0,
                positions.getD (tIdx * 3) 0, positions.getD (tIdx * 3 + 1) 0,
                positions.getD (tIdx * 3 + 2) 0]
    let segCol := [srcColor.1 * dimFactor, srcColor.2.1 * dimFactor, srcColor.2.2 * dimFactor,
                   tgtColor.1 * dimFactor, tgtColor.2.1 * dimFactor, tgtColor.2.2 * dimFactor]
    let rest := sampleLinesLoop src tgt positions srcColor tgtColor dimFactor
      srcCount tgtCount rng k (c + 2)
    (seg ++ rest.1, segCol ++ rest.2.1, rest.2.2)

/-- `_sampleLines(src, tgt, positions, outPos, outCol, density, dimFactor)`:
empty source or target region emits nothing; otherwise the clamped
size-scaled number of random segments is emitted. -/
def sampleLines (src tgt : RegionEntry) (positions : List ℚ) (density dimFactor : ℚ)
    (rng : ℕ → ℚ) (c : ℕ) : List ℚ × List ℚ × ℕ :=
  let srcCount := src.endIdx - src.startIdx
  let tgtCount := tgt.endIdx - tgt.startIdx
  if srcCount = 0 ∨ tgtCount = 0 then ([], [], c)
  else
    sampleLinesLoop src tgt positions (tensorColor src.category) (tensorColor tgt.category)
      dimFactor srcCount tgtCount rng (lineCountOf srcCount tgtCount density) c

/-! ## Theorems -/

/-- C1: the Binary Cursor's 64-bit unsigned read is NOT lossless above `2^53`.
The little-endian bytes `01 00 00 00 00 00 20 00` store `2^53 + 1 =
9007199254740993`, but `readUint64` converts the reconstructed BigInt through
a JS `Number`, which rounds it to `2^53 = 9007199254740992` — the value the
claim (and §4.1 of the spec) requires to be returned exactly.  The first
conjunct evaluates the code, the second states the exact stored value, the
third exhibits the loss. -/
theorem C1_readUint64_rounds_above_2_53 :
    readUint64 [1, 0, 0, 0, 0, 0, 32, 0] 0 = .ok (9007199254740992, 8) ∧
    readLE [1, 0, 0, 0, 0, 0, 32, 0] 4 4 * 2 ^ 32 + readLE [1, 0, 0, 0, 0, 0, 32, 0] 0 4
      = 9007199254740993 ∧
    (9007199254740992 : ℕ) ≠ 9007199254740993 :=
  ⟨rfl, rfl, by norm_num⟩

/-- C8: the half-float decode maps `0x3C00` to exactly 1, `0xC000` to exactly
−2, `0x7C00` to +∞ and `0x0000` to 0. -/
theorem C8_f16_decode_known_patterns :
    f16ToF32 0x3C00 = .finite 1 ∧ f16ToF32 0xC000 = .finite (-2) ∧
    f16ToF32 0x7C00 = JSNum.posInf ∧ f16ToF32 0x0000 = .finite 0 := by
  refine ⟨?_, ?_, ?_, ?_⟩ <;> norm_num [f16ToF32]

/-- C7: on every successful header parse, the returned data-section offset is
the smallest multiple of 32 at or after the cursor position `endPos` reached
immediately after the last tensor-info entry: it is divisible by 32, at least
`endPos`, within 32 bytes of it, and below every other 32-multiple ≥
`endPos`. -/
theorem C7_dataOffset_smallest_aligned (file : List ℕ) (readSize : ℕ) (r : HeaderResult)
    (endPos : ℕ) (h : parseHeaderCore file readSize = .ok (r, endPos)) :
    32 ∣ r.tensorDataOffset ∧ endPos ≤ r.tensorDataOffset ∧
    r.tensorDataOffset < endPos + 32 ∧
    ∀ m : ℕ, 32 ∣ m → endPos ≤ m → r.tensorDataOffset ≤ m := by
  unfold parseHeaderCore at h
  simp only [] at h
  rcases hm : readUint32 (List.take readSize file) 0 with e | ⟨magic, off1⟩ <;>
    (rw [hm] at h; simp only [] at h)
  · exact Except.noConfusion h
  by_cases hmag : magic ≠ 1179993927
  · rw [if_pos hmag] at h; exact Except.noConfusion h
  rw [if_neg hmag] at h
  rcases hv : readUint32 (List.take readSize file) off1 with e | ⟨version, off2⟩ <;>
    (rw [hv] at h; simp only [] at h)
  · exact Except.noConfusion h
  by_cases hver : version < 2 ∨ version > 3
  · rw [if_pos hver] at h; exact Except.noConfusion h
  rw [if_neg hver] at h
  rcases ht : readUint64 (List.take readSize file) off2 with e | ⟨tensorCount, off3⟩ <;>
    (rw [ht] at h; simp only [] at h)
  · exact Except.noConfusion h
  rcases hk : readUint64 (List.take readSize file) off3 with e | ⟨metadataKVCount, off4⟩ <;>
    (rw [hk] at h; simp only [] at h)
  · exact Except.noConfusion h
  rcases hmd : parseMetadataEntries (List.take readSize file) metadataKVCount off4 with
    e | ⟨metadata, off5⟩ <;> (rw [hmd] at h; simp only [] at h)
  · exact Except.noConfusion h
  rcases hte : parseTensorEntries (List.take readSize file) tensorCount off5 with
    e | ⟨tensors, headerEnd⟩ <;> (rw [hte] at h; simp only [] at h)
  · exact Except.noConfusion h
  rw [Except.ok.injEq, Prod.mk.injEq] at h
  obtain ⟨hr, he⟩ := h
  subst he
  rw [← hr]
  refine ⟨?_, ?_, ?_, fun m hm1 hm2 => ?_⟩ <;> dsimp only <;> omega

/-- Minimal valid GGUF header: magic, version 2, zero tensors, zero metadata
entries (24 bytes); used as the concrete witness file. -/
def emptyHeaderFile : List ℕ :=
  [0x47, 0x47, 0x55, 0x46, 2, 0, 0, 0,
   0, 0, 0, 0, 0, 0, 0, 0, 0, 0, 0, 0, 0, 0, 0, 0]

/-- Parse result of `emptyHeaderFile`: the header ends at byte 24 and the
data section is aligned up to 32. -/
def emptyHeaderResult : HeaderResult :=
  { metadata := [], tensors := [], tensorDataOffset := 32, version := 2, tensorCount := 0 }

/-- Witness for C7: the 24-byte empty header parses with `endPos = 24` and
data offset 32, the smallest 32-multiple at or after 24. -/
theorem C7_dataOffset_smallest_aligned_witness :
    32 ∣ emptyHeaderResult.tensorDataOffset ∧ 24 ≤ emptyHeaderResult.tensorDataOffset ∧
    emptyHeaderResult.tensorDataOffset < 24 + 32 ∧
    ∀ m : ℕ, 32 ∣ m → 24 ≤ m → emptyHeaderResult.tensorDataOffset ≤ m :=
  C7_dataOffset_smallest_aligned emptyHeaderFile 24 emptyHeaderResult 24 rfl

/-- C6: the adaptive retry loop of the Header Parser.  (i) The first attempt
uses a slice of `min(file size, 10 MiB)`.  (ii) A successful attempt returns
its result.  (iii) A failure other than insufficient-data propagates
immediately without retry.  (iv) An insufficient-data failure with the slice
still smaller than the file retries at `min(file size, 4 × slice)`.  (v) An
insufficient-data failure with the slice already at the file length
propagates (the cap). -/
theorem C6_adaptive_retry (file : List ℕ) :
    parseGGUFHeader file = parseGGUFHeaderLoop file (min file.length (10 * 1024 * 1024)) ∧
    (∀ s r, parseHeader file s = .ok r → parseGGUFHeaderLoop file s = .ok r) ∧
    (∀ s e, parseHeader file s = .error e → e ≠ .bufferTooSmall →
      parseGGUFHeaderLoop file s = .error e) ∧
    (∀ s, parseHeader file s = .error .bufferTooSmall → s < file.length → 0 < s →
      parseGGUFHeaderLoop file s = parseGGUFHeaderLoop file (min file.length (s * 4))) ∧
    (∀ s, parseHeader file s = .error .bufferTooSmall → ¬s < file.length →
      parseGGUFHeaderLoop file s = .error .bufferTooSmall) := by
  refine ⟨rfl, ?_, ?_, ?_, ?_⟩
  · intro s r h
    rw [parseGGUFHeaderLoop, h]
  · intro s e h hne
    rw [parseGGUFHeaderLoop, h]
    simp [hne]
  · intro s h hlt hpos
    rw [parseGGUFHeaderLoop, h]
    simp [hlt, hpos]
  · intro s h hge
    rw [parseGGUFHeaderLoop, h]
    simp [hge]

/-- A 12-byte truncated GGUF file (magic, version, 4 bytes of the tensor
count): big enough for the magic but not for the header. -/
def truncatedHeaderFile : List ℕ := [0x47, 0x47, 0x55, 0x46, 2, 0, 0, 0, 1, 0, 0, 0]

/-- Witness for C6: a successful parse is returned as-is; a bad magic is
propagated without retry; an insufficient-data failure on a 5-byte slice of
the 12-byte file retries at `min(12, 20) = 12`; an insufficient-data failure
with no room to grow propagates. -/
theorem C6_adaptive_retry_witness :
    parseGGUFHeaderLoop emptyHeaderFile 24 = .ok emptyHeaderResult ∧
    parseGGUFHeaderLoop [0, 0, 0, 0] 4 = .error (.badMagic 0) ∧
    parseGGUFHeaderLoop truncatedHeaderFile 5 =
      parseGGUFHeaderLoop truncatedHeaderFile (min truncatedHeaderFile.length (5 * 4)) ∧
    parseGGUFHeaderLoop [] 0 = .error .bufferTooSmall := by
  refine ⟨(C6_adaptive_retry emptyHeaderFile).2.1 24 emptyHeaderResult rfl,
    (C6_adaptive_retry [0, 0, 0, 0]).2.2.1 4 (.badMagic 0) rfl (by decide),
    (C6_adaptive_retry truncatedHeaderFile).2.2.2.1 5 rfl (by decide) (by decide),
    (C6_adaptive_retry []).2.2.2.2 0 rfl (by decide)⟩

/-- Metadata table exhibiting C2's counterexample: architecture `llama`, the
bare key `block_count` set to 1 and the namespaced key `llama.block_count`
set to 2. -/
def mdBothKeys : MetaTable := fun k =>
  if k = "general.architecture" then some (.str "llama")
  else if k = "block_count" then some (.num 1)
  else if k = "llama.block_count" then some (.num 2)
  else none

/-- Counterexample to C2: with both the bare key (`block_count = 1`) and the
architecture-namespaced key (`llama.block_count = 2`) present with different
values, the extractor resolves the BARE value 1 — not the namespaced value 2
the claim requires (`metadata[key] ?? metadata[arch.key]` checks the bare key
first). -/
theorem C2_counterexample_bare_key_wins :
    mdBothKeys "block_count" = some (.num 1) ∧
    mdBothKeys ("llama" ++ "." ++ "block_count") = some (.num 2) ∧
    (extractArchInfo mdBothKeys).architecture = "llama" ∧
    (extractArchInfo mdBothKeys).blockCount = .num 1 ∧
    MetaVal.num 1 ≠ MetaVal.num 2 :=
  ⟨rfl, by decide, rfl, rfl, by decide⟩

/-- C2 (amended): the Architecture Extractor resolves each field by first
looking up the BARE global key and, only when that key is absent, falling
back to the architecture-namespaced key `"<architecture>.<field>"`; a field
whose resolved value is absent (or falsy) under both keys defaults to zero.
(The key/value head count and the vocabulary size additionally have non-zero
fallbacks and are treated separately.) -/
theorem C2_amended_bare_key_first (md : MetaTable) (arch : String)
    (harch : md "general.architecture" = some (.str arch)) (hne : arch ≠ "") :
    (extractArchInfo md).architecture = arch ∧
    (∀ key v, md key = some v → jsGet md arch key = some v) ∧
    (∀ key, md key = none → jsGet md arch key = md (arch ++ "." ++ key)) ∧
    (extractArchInfo md).blockCount = jsOrZero (jsGet md arch "block_count") ∧
    (extractArchInfo md).contextLength = jsOrZero (jsGet md arch "context_length") ∧
    (extractArchInfo md).embeddingLength = jsOrZero (jsGet md arch "embedding_length") ∧
    (extractArchInfo md).feedForwardLength = jsOrZero (jsGet md arch "feed_forward_length") ∧
    (extractArchInfo md).headCount = jsOrZero (jsGet md arch "attention.head_count") ∧
    (extractArchInfo md).expertCount = jsOrZero (jsGet md arch "expert_count") ∧
    (extractArchInfo md).expertUsedCount = jsOrZero (jsGet md arch "expert_used_count") ∧
    (extractArchInfo md).ropeFreqBase = jsOrZero (jsGet md arch "rope.freq_base") ∧
    (extractArchInfo md).ropeDimensionCount = jsOrZero (jsGet md arch "rope.dimension_count") ∧
    (md "block_count" = none → md (arch ++ "." ++ "block_count") = none →
      (extractArchInfo md).blockCount = .num 0) := by
  have harch' : (extractArchInfo md).architecture = arch := by
    simp [extractArchInfo, harch, jsOrZero, truthy, hne]
  refine ⟨harch', ?_, ?_, ?_, ?_, ?_, ?_, ?_, ?_, ?_, ?_, ?_, ?_⟩
  · intro key v hv
    simp [jsGet, hv]
  · intro key hv
    simp [jsGet, hv]
  all_goals simp [extractArchInfo, harch, jsOrZero, truthy, hne, jsGet]
  intro h1 h2
  simp [h1, h2]

/-- Metadata table for the C2/C10 witnesses: architecture `llama` with only
the namespaced `llama.block_count` and `llama.attention.head_count` set. -/
def mdNamespacedOnly : MetaTable := fun k =>
  if k = "general.architecture" then some (.str "llama")
  else if k = "llama.block_count" then some (.num 7)
  else if k = "llama.attention.head_count" then some (.num 32)
  else none

/-- Witness for the amended C2 at a concrete table. -/
theorem C2_amended_bare_key_first_witness :
    (extractArchInfo mdNamespacedOnly).architecture = "llama" ∧
    (extractArchInfo mdNamespacedOnly).blockCount =
      jsOrZero (jsGet mdNamespacedOnly "llama" "block_count") := by
  have h := C2_amended_bare_key_first mdNamespacedOnly "llama" rfl (by decide)
  exact ⟨h.1, h.2.2.2.1⟩

/-- C10: when the key/value head-count field is absent under both the bare
and the namespaced key, `headCountKV` falls back to the attention head count
(it equals `headCount` rather than zero), and `isGQA` is consequently
false. -/
theorem C10_kv_head_count_fallback (md : MetaTable) (arch : String)
    (harch : md "general.architecture" = some (.str arch)) (hne : arch ≠ "")
    (h1 : md "attention.head_count_kv" = none)
    (h2 : md (arch ++ "." ++ "attention.head_count_kv") = none) :
    (extractArchInfo md).headCountKV = (extractArchInfo md).headCount ∧
    (extractArchInfo md).isGQA = false := by
  have hlt : ∀ v : MetaVal, jsLt v v = false := by
    intro v
    cases v <;> simp [jsLt]
  have hkv : jsGet md arch "attention.head_count_kv" = none := by
    simp [jsGet, h1, h2]
  constructor
  · simp [extractArchInfo, harch, jsOrZero, truthy, hne, hkv, jsSelect]
  · simp [extractArchInfo, harch, jsOrZero, truthy, hne, hkv, jsSelect, hlt]

/-- Witness for C10 at a concrete table with 32 attention heads and no
key/value head-count metadata. -/
theorem C10_kv_head_count_fallback_witness :
    (extractArchInfo mdNamespacedOnly).headCountKV = (extractArchInfo mdNamespacedOnly).headCount ∧
    (extractArchInfo mdNamespacedOnly).isGQA = false :=
  C10_kv_head_count_fallback mdNamespacedOnly "llama" rfl (by decide) (by decide) (by decide)

/-- `Math.round` rounds up by at most a half. -/
theorem jsRound_le (q : ℚ) : (jsRound q : ℚ) ≤ q + 1/2 := by
  unfold jsRound
  exact_mod_cast Int.floor_le (q + 1/2)

/-- `Math.round` rounds down by at most a half. -/
theorem le_jsRound (q : ℚ) : q - 1/2 ≤ (jsRound q : ℚ) := by
  unfold jsRound
  have h := Int.lt_floor_add_one (q + 1/2)
  linarith

/-- Summing rounded values stays within half a unit per element of the sum
of the values themselves. -/
theorem roundSumBounds (l : List ℚ) :
    (l.sum - l.length * (1/2) : ℚ) ≤ (((l.map fun q => jsRound q).sum : ℤ) : ℚ) ∧
    (((l.map fun q => jsRound q).sum : ℤ) : ℚ) ≤ l.sum + l.length * (1/2) := by
  induction l with
  | nil => simp
  | cons q l ih =>
    have h1 := jsRound_le q
    have h2 := le_jsRound q
    obtain ⟨ih1, ih2⟩ := ih
    simp only [List.map_cons, List.sum_cons, List.length_cons] at *
    push_cast at *
    constructor <;> linarith

/-- A list of integers each at least `c` sums to at least `c` per element. -/
theorem sum_const_le {l : List ℤ} {c : ℤ} (h : ∀ x ∈ l, c ≤ x) : c * l.length ≤ l.sum := by
  induction l with
  | nil => simp
  | cons x l ih =>
    have hx := h x (List.mem_cons_self x l)
    have hl := ih fun y hy => h y (List.mem_cons_of_mem x hy)
    simp only [List.sum_cons, List.length_cons]
    push_cast
    nlinarith

/-- C4 (amended): for a non-empty tensor list, the sum of point allocations
after the rescale pass is never more than (number of tensors) BELOW the
requested target; and whenever every tensor's rescaled rounded allocation
already meets the 400-point floor, the sum is within ± (number of tensors)
of the target.  (The claim's unconditional two-sided bound fails: when the
floor re-applies after rescaling it can push the sum far above the target,
see the counterexample.) -/
theorem C4_allocation_sum_bounds (classify : String → Cls) (tensors : List PCTensor)
    (target : ℕ) (hne : tensors ≠ []) :
    ((target : ℚ) - tensors.length ≤
      ((((computeAllocs classify tensors target).map fun a => a.pointCount).sum : ℤ) : ℚ)) ∧
    ((∀ a ∈ rawAllocs classify tensors target,
        400 ≤ jsRound ((a.pointCount : ℚ) *
          ((target : ℚ) /
            ((((rawAllocs classify tensors target).map fun a => a.pointCount).sum : ℤ) : ℚ)))) →
      |((((computeAllocs classify tensors target).map fun a => a.pointCount).sum : ℤ) : ℚ) -
        target| ≤ tensors.length) := by
  have hlenR : (rawAllocs classify tensors target).length = tensors.length := by
    unfold rawAllocs; simp
  have hmem : ∀ a ∈ rawAllocs classify tensors target, (400 : ℤ) ≤ a.pointCount := by
    intro a ha
    unfold rawAllocs at ha
    simp only [List.mem_map] at ha
    obtain ⟨t, _, rfl⟩ := ha
    exact le_max_left _ _
  have hmem' : ∀ x ∈ (rawAllocs classify tensors target).map (fun a => a.pointCount),
      (400 : ℤ) ≤ x := by
    intro x hx
    simp only [List.mem_map] at hx
    obtain ⟨a, ha, rfl⟩ := hx
    exact hmem a ha
  have hn1 : 1 ≤ tensors.length := List.length_pos.mpr hne
  have hApos : 0 < ((rawAllocs classify tensors target).map fun a => a.pointCount).sum := by
    have h := sum_const_le hmem'
    rw [List.length_map, hlenR] at h
    have h4 : (0 : ℤ) < 400 * (tensors.length : ℤ) := by positivity
    omega
  set A : ℤ := ((rawAllocs classify tensors target).map fun a => a.pointCount).sum with hA
  set scale : ℚ := (target : ℚ) / (A : ℚ) with hscale
  have hAne : ((A : ℤ) : ℚ) ≠ 0 := by
    exact_mod_cast hApos.ne'
  have hCA : computeAllocs classify tensors target =
      (rawAllocs classify tensors target).map fun a =>
        { a with pointCount := max MIN_POINTS_PER_TENSOR (jsRound ((a.pointCount : ℚ) * scale)) } := by
    unfold computeAllocs
    rw [if_pos hApos]
  have hxsum : ((rawAllocs classify tensors target).map fun a => (a.pointCount : ℚ) * scale).sum
      = target := by
    rw [List.sum_map_mul_right]
    have hcast : ((rawAllocs classify tensors target).map fun a => ((a.pointCount : ℤ) : ℚ)).sum
        = ((A : ℤ) : ℚ) := by
      rw [hA, Int.cast_list_sum, List.map_map]
      rfl
    rw [hcast, hscale]
    field_simp
  have hxlen : ((rawAllocs classify tensors target).map fun a => (a.pointCount : ℚ) * scale).length
      = tensors.length := by
    rw [List.length_map, hlenR]
  have hbounds := roundSumBounds ((rawAllocs classify tensors target).map
    fun a => (a.pointCount : ℚ) * scale)
  rw [hxsum, hxlen, List.map_map] at hbounds
  have hcomp : (Function.comp (fun q => jsRound q) (fun a : Alloc => (a.pointCount : ℚ) * scale))
      = fun a : Alloc => jsRound ((a.pointCount : ℚ) * scale) := rfl
  rw [hcomp] at hbounds
  have hS : ((computeAllocs classify tensors target).map fun a => a.pointCount).sum =
      ((rawAllocs classify tensors target).map
        fun a => max MIN_POINTS_PER_TENSOR (jsRound ((a.pointCount : ℚ) * scale))).sum := by
    rw [hCA, List.map_map]
    rfl
  constructor
  · have hge : ((rawAllocs classify tensors target).map
        fun a => jsRound ((a.pointCount : ℚ) * scale)).sum ≤
        ((rawAllocs classify tensors target).map
          fun a => max MIN_POINTS_PER_TENSOR (jsRound ((a.pointCount : ℚ) * scale))).sum := by
      apply List.sum_le_sum
      intro a _
      exact le_max_right _ _
    rw [hS]
    have hcast2 : ((((rawAllocs classify tensors target).map
        fun a => jsRound ((a.pointCount : ℚ) * scale)).sum : ℤ) : ℚ) ≤
        ((((rawAllocs classify tensors target).map
          fun a => max MIN_POINTS_PER_TENSOR (jsRound ((a.pointCount : ℚ) * scale))).sum : ℤ) : ℚ) := by
      exact_mod_cast hge
    have hn2 : (1 : ℚ) ≤ (tensors.length : ℚ) := by exact_mod_cast hn1
    linarith [hbounds.1]
  · intro hfloor
    have hmapeq : ((rawAllocs classify tensors target).map
        fun a => max MIN_POINTS_PER_TENSOR (jsRound ((a.pointCount : ℚ) * scale))) =
        ((rawAllocs classify tensors target).map
          fun a => jsRound ((a.pointCount : ℚ) * scale)) := by
      apply List.map_congr_left
      intro a ha
      have h := hfloor a ha
      unfold MIN_POINTS_PER_TENSOR
      omega
    rw [hS, hmapeq]
    have hn2 : (0 : ℚ) ≤ (tensors.length : ℚ) := by positivity
    rw [abs_le]
    constructor <;> linarith [hbounds.1, hbounds.2]

/-- Counterexample to C4 as stated: three 1-element tensors with a requested
target of 500 points.  Proportional allocation floors every tensor to 400
points (total 1200); the rescale pass re-applies the 400-point floor, so the
total stays 1200 — it misses the target by 700, far more than the claimed
bound of 3 tensors. -/
theorem C4_counterexample_floor_overshoot :
    (((computeAllocs (fun _ => ⟨"other", -1, -1⟩)
        [⟨"a", [1], 0, 1⟩, ⟨"b", [1], 0, 1⟩, ⟨"c", [1], 0, 1⟩] 500).map
        fun a => a.pointCount).sum = 1200) ∧
    ¬(|(1200 : ℚ) - 500| ≤ 3) := by
  constructor
  · have h166 : (⌊(1 : ℚ) / (3 / 500)⌋ : ℤ) = 166 := by
      rw [Int.floor_eq_iff]
      norm_num
    have h167 : jsRound ((500 : ℚ) / 3) = 167 := by
      unfold jsRound
      rw [Int.floor_eq_iff]
      norm_num
    simp [computeAllocs, rawAllocs, MIN_POINTS_PER_TENSOR]
    norm_num [h166, h167]
  · norm_num

/-- Witness for the amended C4: one 1000-element tensor at target 1000; the
proportional allocation is exactly 1000 and meets the floor, so the rescaled
sum is within ±1 of the target. -/
theorem C4_allocation_sum_bounds_witness :
    ((1000 : ℚ) - ([⟨"a", [1000], 0, 1000⟩] : List PCTensor).length ≤
      ((((computeAllocs (fun _ => ⟨"other", -1, -1⟩) [⟨"a", [1000], 0, 1000⟩] 1000).map
        fun a => a.pointCount).sum : ℤ) : ℚ)) ∧
    |((((computeAllocs (fun _ => ⟨"other", -1, -1⟩) [⟨"a", [1000], 0, 1000⟩] 1000).map
        fun a => a.pointCount).sum : ℤ) : ℚ) - 1000| ≤
      ([⟨"a", [1000], 0, 1000⟩] : List PCTensor).length := by
  have h := C4_allocation_sum_bounds (fun _ => ⟨"other", -1, -1⟩) [⟨"a", [1000], 0, 1000⟩] 1000
    (by simp)
  have hfl : (⌊(1000 : ℚ) / (1000 / 1000)⌋ : ℤ) = 1000 := by
    rw [Int.floor_eq_iff]
    norm_num
  have hlist : rawAllocs (fun _ => ⟨"other", -1, -1⟩) [⟨"a", [1000], 0, 1000⟩] 1000 =
      [⟨⟨"a", [1000], 0, 1000⟩, ⟨"other", -1, -1⟩, 1000⟩] := by
    unfold rawAllocs
    simp only [List.map_cons, List.map_nil, List.sum_cons, List.sum_nil]
    norm_num [MIN_POINTS_PER_TENSOR, hfl]
  have hj : jsRound ((1000 : ℚ)) = 1000 := by
    unfold jsRound
    rw [Int.floor_eq_iff]
    norm_num
  refine ⟨h.1, h.2 ?_⟩
  rw [hlist]
  intro a ha
  simp only [List.mem_singleton] at ha
  subst ha
  norm_num [hj]

/-- The line loop emits exactly six position floats and six color floats per
segment. -/
theorem sampleLinesLoop_length (src tgt : RegionEntry) (positions : List ℚ)
    (srcColor tgtColor : ℚ × ℚ × ℚ) (dimFactor : ℚ) (srcCount tgtCount : ℕ)
    (rng : ℕ → ℚ) (k c : ℕ) :
    (sampleLinesLoop src tgt positions srcColor tgtColor dimFactor srcCount tgtCount rng k c).1.length
      = 6 * k ∧
    (sampleLinesLoop src tgt positions srcColor tgtColor dimFactor srcCount tgtCount rng k c).2.1.length
      = 6 * k := by
  induction k generalizing c with
  | zero => simp [sampleLinesLoop]
  | succ k ih =>
    obtain ⟨ih1, ih2⟩ := ih (c + 2)
    simp only [sampleLinesLoop, List.length_append, List.length_cons, List.length_nil]
    constructor <;> omega

/-- C5 (amended): for a matched pair with positive source and target point
counts `s` and `t` and density `d`, the Connection Generator emits exactly
`max(2, round(min(100, max(8, ⌊√(min(s, t))⌋)) × d))` line segments — the
square root is floored BEFORE clamping to [8, 100], and the final count has
a lower bound of 2 the claim omits. -/
theorem C5_segment_count (src tgt : RegionEntry) (positions : List ℚ) (density dimFactor : ℚ)
    (rng : ℕ → ℚ) (c : ℕ)
    (hs : 0 < src.endIdx - src.startIdx) (ht : 0 < tgt.endIdx - tgt.startIdx) :
    (sampleLines src tgt positions density dimFactor rng c).1.length =
      6 * lineCountOf (src.endIdx - src.startIdx) (tgt.endIdx - tgt.startIdx) density ∧
    (sampleLines src tgt positions density dimFactor rng c).2.1.length =
      6 * lineCountOf (src.endIdx - src.startIdx) (tgt.endIdx - tgt.startIdx) density := by
  unfold sampleLines
  rw [if_neg (by omega)]
  exact sampleLinesLoop_length src tgt positions _ _ dimFactor _ _ rng _ c

/-- Source region of the C5 counterexample/witness: points 0–63. -/
def srcRegion64 : RegionEntry := ⟨"s", "attn_q", 0, -1, [64], 0, ⟨0, 0, 0, 1, 1, 1⟩, 0, 64⟩

/-- Target region of the C5 counterexample/witness: points 64–127. -/
def tgtRegion64 : RegionEntry := ⟨"t", "attn_out", 0, -1, [64], 0, ⟨0, 0, 0, 1, 1, 1⟩, 64, 128⟩

/-- Counterexample to C5 as stated: with 64 source points, 64 target points
and density 1/8, the code emits 2 segments (the `max(2, ·)` floor), while the
claimed formula `round(clamp(√64, 8, 100) × 1/8) = round(1) = 1` demands a
single segment. -/
theorem C5_counterexample_min_two_segments :
    (sampleLines srcRegion64 tgtRegion64 [] (1/8) (1/2) (fun _ => 0) 0).1.length = 6 * 2 ∧
    ⌊min (100 : ℝ) (max 8 (Real.sqrt 64)) * (1/8) + 1/2⌋ = 1 ∧
    (6 * 2 : ℕ) ≠ 6 * 1 := by
  have h8 : Nat.sqrt 64 = 8 := by norm_num
  have hj : jsRound ((1 : ℚ)) = 1 := by
    unfold jsRound
    rw [Int.floor_eq_iff]
    norm_num
  have hlc : lineCountOf 64 64 (1/8) = 2 := by
    unfold lineCountOf
    norm_num [h8, hj]
  refine ⟨?_, ?_, by norm_num⟩
  · have hcount : srcRegion64.endIdx - srcRegion64.startIdx = 64 := rfl
    have hcount2 : tgtRegion64.endIdx - tgtRegion64.startIdx = 64 := rfl
    unfold sampleLines
    rw [hcount, hcount2, if_neg (by omega), hlc]
    exact (sampleLinesLoop_length _ _ _ _ _ _ _ _ _ 2 0).1
  · have hr : Real.sqrt 64 = 8 := by
      rw [show (64 : ℝ) = 8 ^ 2 by norm_num]
      exact Real.sqrt_sq (by norm_num)
    rw [hr]
    rw [show max (8 : ℝ) 8 = 8 from max_self 8]
    rw [show min (100 : ℝ) 8 = 8 by norm_num]
    rw [Int.floor_eq_iff]
    norm_num

/-- Witness for the amended C5 at the concrete 64/64-point regions. -/
theorem C5_segment_count_witness :
    (sampleLines srcRegion64 tgtRegion64 [] 1 (1/2) (fun _ => 0) 0).1.length =
      6 * lineCountOf (srcRegion64.endIdx - srcRegion64.startIdx)
        (tgtRegion64.endIdx - tgtRegion64.startIdx) 1 ∧
    (sampleLines srcRegion64 tgtRegion64 [] 1 (1/2) (fun _ => 0) 0).2.1.length =
      6 * lineCountOf (srcRegion64.endIdx - srcRegion64.startIdx)
        (tgtRegion64.endIdx - tgtRegion64.startIdx) 1 :=
  C5_segment_count srcRegion64 tgtRegion64 [] 1 (1/2) (fun _ => 0) 0 (by decide) (by decide)

/-- Each emitted point contributes exactly three position floats and three
color floats. -/
theorem emitPoint_length (colorMode : String) (blockCount : ℚ) (cls : Cls) (dims : List ℕ)
    (numElements pointCount : ℕ) (w : Option (List ℚ)) (maxAbs : ℚ) (region : Region)
    (rng : ℕ → ℚ) (pi c : ℕ) :
    (emitPoint colorMode blockCount cls dims numElements pointCount w maxAbs region rng pi c).1.length = 3 ∧
    (emitPoint colorMode blockCount cls dims numElements pointCount w maxAbs region rng pi c).2.1.length = 3 :=
  ⟨rfl, rfl⟩

/-- The per-tensor point loop emits three position floats and three color
floats per allocated point, regardless of the weight samples. -/
theorem emitPoints_length (colorMode : String) (blockCount : ℚ) (cls : Cls) (dims : List ℕ)
    (numElements pointCount : ℕ) (w : Option (List ℚ)) (maxAbs : ℚ) (region : Region)
    (rng : ℕ → ℚ) (k : ℕ) : ∀ pi c,
    (emitPoints colorMode blockCount cls dims numElements pointCount w maxAbs region rng k pi c).1.length = 3 * k ∧
    (emitPoints colorMode blockCount cls dims numElements pointCount w maxAbs region rng k pi c).2.1.length = 3 * k := by
  induction k with
  | zero => intro pi c; simp [emitPoints]
  | succ k ih =>
    intro pi c
    obtain ⟨ih1, ih2⟩ := ih (pi + 1)
      (emitPoint colorMode blockCount cls dims numElements pointCount w maxAbs region rng pi c).2.2
    simp only [emitPoints, List.length_append,
      (emitPoint_length colorMode blockCount cls dims numElements pointCount w maxAbs region rng pi c).1,
      (emitPoint_length colorMode blockCount cls dims numElements pointCount w maxAbs region rng pi c).2,
      ih1, ih2]
    omega

/-- In weight mode with no sampled values the color branch is exactly the
role-palette branch of the non-weight modes. -/
theorem pointRGB_weight_none (blockCount : ℚ) (cls : Cls) (w : Option (List ℚ))
    (maxAbs maxAbs' : ℚ) (rng : ℕ → ℚ) (pi c : ℕ) :
    pointRGB "weight" blockCount cls none maxAbs rng pi c =
    pointRGB "tensor" blockCount cls w maxAbs' rng pi c := by
  cases w <;> simp [pointRGB]

/-- A point of a failed-sampling tensor in weight mode is emitted exactly as
in role-palette mode: same position, same fallback color, same draws. -/
theorem emitPoint_weight_none (blockCount : ℚ) (cls : Cls) (dims : List ℕ)
    (numElements pointCount : ℕ) (w : Option (List ℚ)) (maxAbs maxAbs' : ℚ) (region : Region)
    (rng : ℕ → ℚ) (pi c : ℕ) :
    emitPoint "weight" blockCount cls dims numElements pointCount none maxAbs region rng pi c =
    emitPoint "tensor" blockCount cls dims numElements pointCount w maxAbs' region rng pi c := by
  unfold emitPoint
  rw [pointRGB_weight_none blockCount cls w maxAbs maxAbs' rng pi c]

/-- The whole per-tensor loop of a failed-sampling tensor in weight mode
coincides with the role-palette loop. -/
theorem emitPoints_weight_none (blockCount : ℚ) (cls : Cls) (dims : List ℕ)
    (numElements pointCount : ℕ) (w : Option (List ℚ)) (maxAbs maxAbs' : ℚ) (region : Region)
    (rng : ℕ → ℚ) (k : ℕ) : ∀ pi c,
    emitPoints "weight" blockCount cls dims numElements pointCount none maxAbs region rng k pi c =
    emitPoints "tensor" blockCount cls dims numElements pointCount w maxAbs' region rng k pi c := by
  induction k with
  | zero => intro pi c; rfl
  | succ k ih =>
    intro pi c
    simp only [emitPoints]
    rw [emitPoint_weight_none blockCount cls dims numElements pointCount w maxAbs maxAbs' region rng pi c]
    rw [ih (pi + 1) _]

/-- Phase 2 always places every allocated point: the final global index and
the buffer lengths depend only on the allocations, never on the sampled
weights. -/
theorem phase2_counts (blockCount : ℚ) (layout : String → ℤ → ℤ → Region) (colorMode : String)
    (rng : ℕ → ℚ) : ∀ (lst : List (Alloc × Option (List ℚ))) (gIdx c : ℕ),
    (phase2 blockCount layout colorMode rng lst gIdx c).2.2.2.1 =
      gIdx + (lst.map fun p => p.1.pointCount.toNat).sum ∧
    (phase2 blockCount layout colorMode rng lst gIdx c).1.length =
      3 * (lst.map fun p => p.1.pointCount.toNat).sum ∧
    (phase2 blockCount layout colorMode rng lst gIdx c).2.1.length =
      3 * (lst.map fun p => p.1.pointCount.toNat).sum := by
  intro lst
  induction lst with
  | nil => intro gIdx c; simp [phase2]
  | cons p rest ih =>
    intro gIdx c
    obtain ⟨a, w⟩ := p
    obtain ⟨ih1, ih2, ih3⟩ := ih (gIdx + a.pointCount.toNat) (emitPoints colorMode blockCount a.cls
      a.tensor.dims a.tensor.numElements a.pointCount.toNat w (maxAbsOf w)
      (layout a.cls.category a.cls.layerIdx a.cls.expertIdx) rng a.pointCount.toNat 0 c).2.2
    simp only [phase2, List.map_cons, List.sum_cons, List.length_append, ih1, ih2, ih3,
      (emitPoints_length colorMode blockCount a.cls a.tensor.dims a.tensor.numElements
        a.pointCount.toNat w (maxAbsOf w)
        (layout a.cls.category a.cls.layerIdx a.cls.expertIdx) rng a.pointCount.toNat 0 c).1,
      (emitPoints_length colorMode blockCount a.cls a.tensor.dims a.tensor.numElements
        a.pointCount.toNat w (maxAbsOf w)
        (layout a.cls.category a.cls.layerIdx a.cls.expertIdx) rng a.pointCount.toNat 0 c).2]
    omega

/-- Each tensor's sampling outcome lands in its own slot of the weights
array, independent of the other tensors. -/
theorem samplePhase_get (sampler : PCTensor → ℕ → Except String (List ℚ)) (allocs : List Alloc)
    (j : ℕ) :
    (samplePhase sampler "weight" allocs)[j]? =
      (allocs[j]?).map fun a => (sampler a.tensor a.pointCount.toNat).toOption := by
  simp [samplePhase]

/-- C9: when sampling tensor `i` fails, point-cloud generation does not
abort.  (1) The failed tensor's weights slot is `none` while every slot is
its own tensor's outcome (other tensors are still sampled).  (2)/(3) The
point count and position buffer cover every allocated point of every tensor,
whatever the sampler did.  (4) The failed tensor's points are emitted — same
positions, same generator draws — with the role-palette fallback coloring,
identical to the non-weight `tensor` color mode. -/
theorem C9_per_tensor_failure_recovery (arch : ArchDesc) (classify : String → Cls)
    (tensors : List PCTensor) (target : ℕ) (sampler : PCTensor → ℕ → Except String (List ℚ))
    (rng : ℕ → ℚ) (i : ℕ) (e : String) (a : Alloc)
    (ha : (computeAllocs classify tensors target)[i]? = some a)
    (hfail : sampler a.tensor a.pointCount.toNat = .error e) :
    (samplePhase sampler "weight" (computeAllocs classify tensors target))[i]? = some none ∧
    (∀ j : ℕ, (samplePhase sampler "weight" (computeAllocs classify tensors target))[j]? =
      ((computeAllocs classify tensors target)[j]?).map
        fun b => (sampler b.tensor b.pointCount.toNat).toOption) ∧
    (generatePointCloud arch classify tensors target "weight" sampler rng).actualPointCount =
      ((computeAllocs classify tensors target).map fun b => b.pointCount.toNat).sum ∧
    (generatePointCloud arch classify tensors target "weight" sampler rng).positions.length =
      3 * ((computeAllocs classify tensors target).map fun b => b.pointCount.toNat).sum ∧
    (∀ w maxAbs maxAbs' dims nE pc region k pi c,
      emitPoints "weight" arch.blockCount a.cls dims nE pc none maxAbs region rng k pi c =
      emitPoints "tensor" arch.blockCount a.cls dims nE pc w maxAbs' region rng k pi c) := by
  have hlen : (samplePhase sampler "weight" (computeAllocs classify tensors target)).length =
      (computeAllocs classify tensors target).length := by
    simp [samplePhase]
  have hzip : (((computeAllocs classify tensors target).zip
      (samplePhase sampler "weight" (computeAllocs classify tensors target))).map
        fun p => p.1.pointCount.toNat).sum =
      ((computeAllocs classify tensors target).map fun b => b.pointCount.toNat).sum := by
    have hmm : ((computeAllocs classify tensors target).zip
        (samplePhase sampler "weight" (computeAllocs classify tensors target))).map
          (fun p => p.1.pointCount.toNat) =
        (((computeAllocs classify tensors target).zip
          (samplePhase sampler "weight" (computeAllocs classify tensors target))).map
            Prod.fst).map (fun b => b.pointCount.toNat) := by
      rw [List.map_map]
      rfl
    rw [hmm, List.map_fst_zip _ _ (le_of_eq hlen.symm)]
  refine ⟨?_, ?_, ?_, ?_, ?_⟩
  · rw [samplePhase_get, ha]
    simp [hfail, Except.toOption]
  · intro j
    exact samplePhase_get sampler _ j
  · unfold generatePointCloud
    simp only []
    rw [(phase2_counts arch.blockCount (getRegion arch) "weight" rng _ 0 0).1, hzip]
    omega
  · unfold generatePointCloud
    simp only []
    rw [(phase2_counts arch.blockCount (getRegion arch) "weight" rng _ 0 0).2.1, hzip]
  · intro w maxAbs maxAbs' dims nE pc region k pi c
    exact emitPoints_weight_none arch.blockCount a.cls dims nE pc w maxAbs maxAbs' region rng k pi c

/-- A concrete attention-query tensor for the C9 witness. -/
def qTensor : PCTensor := ⟨"blk.0.attn_q.weight", [1000], 0, 1000⟩

/-- Its classification. -/
def qCls : Cls := ⟨"attn_q", 0, -1⟩

/-- A sampler whose every read fails (e.g. a corrupt offset past the file
end). -/
def failSampler : PCTensor → ℕ → Except String (List ℚ) :=
  fun _ _ => .error "read beyond file bounds"

/-- A small dense architecture descriptor for the C9 witness. -/
def smallArch : ArchDesc := ⟨2, 4, 4, 64, 256, 0, false⟩

/-- Witness for C9: with the always-failing sampler, the single tensor's
weights slot is `none` and the cloud still contains all its allocated
points. -/
theorem C9_per_tensor_failure_recovery_witness :
    (samplePhase failSampler "weight" (computeAllocs (fun _ => qCls) [qTensor] 1000))[0]? =
      some none ∧
    (generatePointCloud smallArch (fun _ => qCls) [qTensor] 1000 "weight" failSampler
      (fun _ => 0)).actualPointCount =
      ((computeAllocs (fun _ => qCls) [qTensor] 1000).map fun b => b.pointCount.toNat).sum := by
  have hfl : (⌊(1000 : ℚ) / (1000 / 1000)⌋ : ℤ) = 1000 := by
    rw [Int.floor_eq_iff]
    norm_num
  have hj : jsRound ((1000 : ℚ)) = 1000 := by
    unfold jsRound
    rw [Int.floor_eq_iff]
    norm_num
  have hlist : rawAllocs (fun _ => qCls) [qTensor] 1000 = [⟨qTensor, qCls, 1000⟩] := by
    unfold rawAllocs qTensor
    simp only [List.map_cons, List.map_nil, List.sum_cons, List.sum_nil]
    norm_num [MIN_POINTS_PER_TENSOR, hfl]
  have hca : computeAllocs (fun _ => qCls) [qTensor] 1000 = [⟨qTensor, qCls, 1000⟩] := by
    unfold computeAllocs
    rw [hlist]
    norm_num [MIN_POINTS_PER_TENSOR, hj]
  have h := C9_per_tensor_failure_recovery smallArch (fun _ => qCls) [qTensor] 1000 failSampler
    (fun _ => 0) 0 "read beyond file bounds" ⟨qTensor, qCls, 1000⟩ (by rw [hca]; rfl) rfl
  exact ⟨h.1, h.2.2.1⟩

/-- The color branch consumes three or four generator draws per point. -/
theorem pointRGB_counter (cm : String) (bc : ℚ) (cls : Cls) (w : Option (List ℚ)) (maxAbs : ℚ)
    (rng : ℕ → ℚ) (pi c : ℕ) :
    c + 3 ≤ (pointRGB cm bc cls w maxAbs rng pi c).2 ∧
    (pointRGB cm bc cls w maxAbs rng pi c).2 ≤ c + 4 := by
  cases w <;> unfold pointRGB <;> split_ifs <;> simp <;> split_ifs <;> simp

/-- The color branch reads the generator only at index `c + 3`. -/
theorem pointRGB_congr (cm : String) (bc : ℚ) (cls : Cls) (w : Option (List ℚ)) (maxAbs : ℚ)
    (s1 s2 : ℕ → ℚ) (pi c : ℕ) (h : ∀ i, c ≤ i → i < c + 4 → s1 i = s2 i) :
    pointRGB cm bc cls w maxAbs s1 pi c = pointRGB cm bc cls w maxAbs s2 pi c := by
  have h3 : s1 (c + 3) = s2 (c + 3) := h _ (by omega) (by omega)
  cases w <;> unfold pointRGB <;> simp only [h3]

/-- One point consumes three or four generator draws. -/
theorem emitPoint_counter (cm : String) (bc : ℚ) (cls : Cls) (dims : List ℕ) (nE pc : ℕ)
    (w : Option (List ℚ)) (maxAbs : ℚ) (region : Region) (rng : ℕ → ℚ) (pi c : ℕ) :
    c + 3 ≤ (emitPoint cm bc cls dims nE pc w maxAbs region rng pi c).2.2 ∧
    (emitPoint cm bc cls dims nE pc w maxAbs region rng pi c).2.2 ≤ c + 4 :=
  pointRGB_counter cm bc cls w maxAbs rng pi c

/-- One point's output depends on the generator only through draws
`c .. c+3`. -/
theorem emitPoint_congr (cm : String) (bc : ℚ) (cls : Cls) (dims : List ℕ) (nE pc : ℕ)
    (w : Option (List ℚ)) (maxAbs : ℚ) (region : Region) (s1 s2 : ℕ → ℚ) (pi c : ℕ)
    (h : ∀ i, c ≤ i → i < c + 4 → s1 i = s2 i) :
    emitPoint cm bc cls dims nE pc w maxAbs region s1 pi c =
    emitPoint cm bc cls dims nE pc w maxAbs region s2 pi c := by
  have h0 : s1 c = s2 c := h _ (by omega) (by omega)
  have h1 : s1 (c + 1) = s2 (c + 1) := h _ (by omega) (by omega)
  have h2 : s1 (c + 2) = s2 (c + 2) := h _ (by omega) (by omega)
  unfold emitPoint
  rw [pointRGB_congr cm bc cls w maxAbs s1 s2 pi c h]
  simp only [h0, h1, h2]

/-- The per-tensor loop consumes at most four draws per point. -/
theorem emitPoints_counter (cm : String) (bc : ℚ) (cls : Cls) (dims : List ℕ) (nE pc : ℕ)
    (w : Option (List ℚ)) (maxAbs : ℚ) (region : Region) (rng : ℕ → ℚ) (k : ℕ) : ∀ pi c,
    c ≤ (emitPoints cm bc cls dims nE pc w maxAbs region rng k pi c).2.2 ∧
    (emitPoints cm bc cls dims nE pc w maxAbs region rng k pi c).2.2 ≤ c + 4 * k := by
  induction k with
  | zero => intro pi c; simp [emitPoints]
  | succ k ih =>
    intro pi c
    obtain ⟨hc1, hc2⟩ := emitPoint_counter cm bc cls dims nE pc w maxAbs region rng pi c
    obtain ⟨ih1, ih2⟩ := ih (pi + 1) (emitPoint cm bc cls dims nE pc w maxAbs region rng pi c).2.2
    simp only [emitPoints]
    omega

/-- The per-tensor loop's output depends on the generator only through its
first `4 × count` draws past the entry index. -/
theorem emitPoints_congr (cm : String) (bc : ℚ) (cls : Cls) (dims : List ℕ) (nE pc : ℕ)
    (w : Option (List ℚ)) (maxAbs : ℚ) (region : Region) (s1 s2 : ℕ → ℚ) (k : ℕ) : ∀ pi c,
    (∀ i, c ≤ i → i < c + 4 * k → s1 i = s2 i) →
    emitPoints cm bc cls dims nE pc w maxAbs region s1 k pi c =
    emitPoints cm bc cls dims nE pc w maxAbs region s2 k pi c := by
  induction k with
  | zero => intro pi c _; rfl
  | succ k ih =>
    intro pi c h
    have hp : emitPoint cm bc cls dims nE pc w maxAbs region s1 pi c =
        emitPoint cm bc cls dims nE pc w maxAbs region s2 pi c :=
      emitPoint_congr cm bc cls dims nE pc w maxAbs region s1 s2 pi c
        fun i hi1 hi2 => h i hi1 (by omega)
    obtain ⟨hc1, hc2⟩ := emitPoint_counter cm bc cls dims nE pc w maxAbs region s2 pi c
    simp only [emitPoints, hp]
    rw [ih (pi + 1) (emitPoint cm bc cls dims nE pc w maxAbs region s2 pi c).2.2
      fun i hi1 hi2 => h i (by omega) (by omega)]

/-- Phase 2's output depends on the generator only through its first
`4 × (total allocated points)` draws. -/
theorem phase2_congr (bc : ℚ) (layout : String → ℤ → ℤ → Region) (cm : String)
    (s1 s2 : ℕ → ℚ) : ∀ (lst : List (Alloc × Option (List ℚ))) (gIdx c : ℕ),
    (∀ i, c ≤ i → i < c + 4 * (lst.map fun p => p.1.pointCount.toNat).sum → s1 i = s2 i) →
    phase2 bc layout cm s1 lst gIdx c = phase2 bc layout cm s2 lst gIdx c := by
  intro lst
  induction lst with
  | nil => intro gIdx c _; rfl
  | cons p rest ih =>
    intro gIdx c h
    obtain ⟨a, w⟩ := p
    simp only [List.map_cons, List.sum_cons] at h
    have hp : emitPoints cm bc a.cls a.tensor.dims a.tensor.numElements a.pointCount.toNat w
        (maxAbsOf w) (layout a.cls.category a.cls.layerIdx a.cls.expertIdx) s1
        a.pointCount.toNat 0 c =
        emitPoints cm bc a.cls a.tensor.dims a.tensor.numElements a.pointCount.toNat w
        (maxAbsOf w) (layout a.cls.category a.cls.layerIdx a.cls.expertIdx) s2
        a.pointCount.toNat 0 c :=
      emitPoints_congr cm bc a.cls a.tensor.dims a.tensor.numElements a.pointCount.toNat w
        (maxAbsOf w) (layout a.cls.category a.cls.layerIdx a.cls.expertIdx) s1 s2
        a.pointCount.toNat 0 c fun i hi1 hi2 => h i hi1 (by omega)
    obtain ⟨hc1, hc2⟩ := emitPoints_counter cm bc a.cls a.tensor.dims a.tensor.numElements
      a.pointCount.toNat w (maxAbsOf w) (layout a.cls.category a.cls.layerIdx a.cls.expertIdx)
      s2 a.pointCount.toNat 0 c
    simp only [phase2, hp]
    rw [ih (gIdx + a.pointCount.toNat) (emitPoints cm bc a.cls a.tensor.dims
      a.tensor.numElements a.pointCount.toNat w (maxAbsOf w)
      (layout a.cls.category a.cls.layerIdx a.cls.expertIdx) s2 a.pointCount.toNat 0 c).2.2
      fun i hi1 hi2 => h i (by omega) (by omega)]

/-- The line loop consumes exactly two draws per segment. -/
theorem sampleLinesLoop_congr (src tgt : RegionEntry) (positions : List ℚ)
    (srcColor tgtColor : ℚ × ℚ × ℚ) (dimFactor : ℚ) (srcCount tgtCount : ℕ)
    (s1 s2 : ℕ → ℚ) (k : ℕ) : ∀ c,
    (∀ i, c ≤ i → i < c + 2 * k → s1 i = s2 i) →
    sampleLinesLoop src tgt positions srcColor tgtColor dimFactor srcCount tgtCount s1 k c =
    sampleLinesLoop src tgt positions srcColor tgtColor dimFactor srcCount tgtCount s2 k c := by
  induction k with
  | zero => intro c _; rfl
  | succ k ih =>
    intro c h
    have h0 : s1 c = s2 c := h _ (by omega) (by omega)
    have h1 : s1 (c + 1) = s2 (c + 1) := h _ (by omega) (by omega)
    simp only [sampleLinesLoop, h0, h1]
    rw [ih (c + 2) fun i hi1 hi2 => h i (by omega) (by omega)]

/-- C3 (amended): the point-cloud generator and the line sampler draw all
randomness from the ambient `Math.random` sequence — modelled as the explicit
stream argument, since the code has no injectable seed — and their outputs
are deterministic functions of the declared inputs plus that draw sequence:
two runs coincide whenever the streams agree on the draws actually consumed
(at most 4 per point, exactly 2 per line segment). -/
theorem C3_ambient_stream_determinism (arch : ArchDesc) (classify : String → Cls)
    (tensors : List PCTensor) (target : ℕ) (colorMode : String)
    (sampler : PCTensor → ℕ → Except String (List ℚ)) (s1 s2 : ℕ → ℚ)
    (h : ∀ i < 4 * ((computeAllocs classify tensors target).map fun a => a.pointCount.toNat).sum,
      s1 i = s2 i) :
    generatePointCloud arch classify tensors target colorMode sampler s1 =
      generatePointCloud arch classify tensors target colorMode sampler s2 ∧
    (∀ (src tgt : RegionEntry) (positions : List ℚ) (density dimFactor : ℚ) (c : ℕ),
      (∀ i, c ≤ i → i < c + 2 * lineCountOf (src.endIdx - src.startIdx)
          (tgt.endIdx - tgt.startIdx) density → s1 i = s2 i) →
      sampleLines src tgt positions density dimFactor s1 c =
      sampleLines src tgt positions density dimFactor s2 c) := by
  constructor
  · have hlen : (samplePhase sampler colorMode (computeAllocs classify tensors target)).length =
        (computeAllocs classify tensors target).length := by
      unfold samplePhase
      split_ifs <;> simp
    have hzip : (((computeAllocs classify tensors target).zip
        (samplePhase sampler colorMode (computeAllocs classify tensors target))).map
          fun p => p.1.pointCount.toNat).sum =
        ((computeAllocs classify tensors target).map fun a => a.pointCount.toNat).sum := by
      have hmm : ((computeAllocs classify tensors target).zip
          (samplePhase sampler colorMode (computeAllocs classify tensors target))).map
            (fun p => p.1.pointCount.toNat) =
          (((computeAllocs classify tensors target).zip
            (samplePhase sampler colorMode (computeAllocs classify tensors target))).map
              Prod.fst).map (fun a => a.pointCount.toNat) := by
        rw [List.map_map]
        rfl
      rw [hmm, List.map_fst_zip _ _ (le_of_eq hlen.symm)]
    unfold generatePointCloud
    simp only []
    rw [phase2_congr arch.blockCount (getRegion arch) colorMode s1 s2 _ 0 0
      (by rw [hzip]; intro i hi1 hi2; exact h i (by omega))]
  · intro src tgt positions density dimFactor c hl
    unfold sampleLines
    simp only []
    split_ifs with hz
    · rfl
    · exact sampleLinesLoop_congr src tgt positions _ _ dimFactor _ _ s1 s2 _ c hl

/-- Source region for the C3 counterexample: points 0–3. -/
def srcRegion4 : RegionEntry := ⟨"s", "attn_q", 0, -1, [4], 0, ⟨0, 0, 0, 1, 1, 1⟩, 0, 4⟩

/-- Target region for the C3 counterexample: points 4–7. -/
def tgtRegion4 : RegionEntry := ⟨"t", "attn_out", 0, -1, [4], 0, ⟨0, 0, 0, 1, 1, 1⟩, 4, 8⟩

/-- Eight points' worth of positions for the C3 counterexample. -/
def posGrid : List ℚ :=
  [10, 11, 12, 20, 21, 22, 30, 31, 32, 40, 41, 42, 50, 51, 52, 60, 61, 62, 70, 71, 72, 80, 81, 82]

/-- Counterexample to C3 as stated: with every declared input fixed (regions,
positions, density), two runs differing only in the ambient `Math.random`
draw sequence produce different line buffers — the code draws from the
implicit global generator and accepts no seed, so its output is not a
function of the inputs and a seed. -/
theorem C3_counterexample_global_random :
    (sampleLines srcRegion4 tgtRegion4 posGrid (1/8) (1/2) (fun _ => 0) 0).1 ≠
    (sampleLines srcRegion4 tgtRegion4 posGrid (1/8) (1/2) (fun _ => (1/2 : ℚ)) 0).1 := by
  have hs : Nat.sqrt 4 = 2 := by norm_num
  have hj : jsRound ((1 : ℚ)) = 1 := by
    unfold jsRound
    rw [Int.floor_eq_iff]
    norm_num
  have hlc : lineCountOf 4 4 (1/8) = 2 := by
    unfold lineCountOf
    norm_num [hs, hj]
  have hf2 : (⌊(1/2 : ℚ) * ((4 : ℕ) : ℚ)⌋ : ℤ) = 2 := by
    rw [Int.floor_eq_iff]
    norm_num
  have h1 : (sampleLines srcRegion4 tgtRegion4 posGrid (1/8) (1/2) (fun _ => 0) 0).1.head? =
      some 10 := by
    unfold sampleLines
    simp only [srcRegion4, tgtRegion4]
    norm_num [hlc, sampleLinesLoop, posGrid]
  have ht2 : (2 : ℤ).toNat = 2 := rfl
  have h2 : (sampleLines srcRegion4 tgtRegion4 posGrid (1/8) (1/2) (fun _ => (1/2 : ℚ)) 0).1.head? =
      some 30 := by
    unfold sampleLines
    simp only [srcRegion4, tgtRegion4]
    norm_num [hlc, sampleLinesLoop, posGrid, hf2, ht2]
  intro heq
  rw [heq, h2] at h1
  simp at h1

/-- Witness for the amended C3: two streams that agree on the first 4000
draws (all the cloud consumes for one 1000-point tensor) yield identical
outputs. -/
theorem C3_ambient_stream_determinism_witness :
    generatePointCloud smallArch (fun _ => qCls) [qTensor] 1000 "tensor" failSampler
        (fun i => if i < 4000 then 0 else 1) =
      generatePointCloud smallArch (fun _ => qCls) [qTensor] 1000 "tensor" failSampler
        (fun _ => 0) ∧
    (∀ (src tgt : RegionEntry) (positions : List ℚ) (density dimFactor : ℚ) (c : ℕ),
      (∀ i, c ≤ i → i < c + 2 * lineCountOf (src.endIdx - src.startIdx)
          (tgt.endIdx - tgt.startIdx) density → (fun i => if i < 4000 then (0 : ℚ) else 1) i =
            (fun _ => (0 : ℚ)) i) →
      sampleLines src tgt positions density dimFactor (fun i => if i < 4000 then 0 else 1) c =
      sampleLines src tgt positions density dimFactor (fun _ => 0) c) := by
  have hfl : (⌊(1000 : ℚ) / (1000 / 1000)⌋ : ℤ) = 1000 := by
    rw [Int.floor_eq_iff]
    norm_num
  have hj : jsRound ((1000 : ℚ)) = 1000 := by
    unfold jsRound
    rw [Int.floor_eq_iff]
    norm_num
  have hlist : rawAllocs (fun _ => qCls) [qTensor] 1000 = [⟨qTensor, qCls, 1000⟩] := by
    unfold rawAllocs qTensor
    simp only [List.map_cons, List.map_nil, List.sum_cons, List.sum_nil]
    norm_num [MIN_POINTS_PER_TENSOR, hfl]
  have hca : computeAllocs (fun _ => qCls) [qTensor] 1000 = [⟨qTensor, qCls, 1000⟩] := by
    unfold computeAllocs
    rw [hlist]
    norm_num [MIN_POINTS_PER_TENSOR, hj]
  exact C3_ambient_stream_determinism smallArch (fun _ => qCls) [qTensor] 1000 "tensor"
    failSampler _ _
    (by
      rw [hca]
      intro i hi
      simp only [List.map_cons, List.map_nil, List.sum_cons, List.sum_nil] at hi
      have hlt : i < 4000 := by omega
      simp [hlt])
